import Mathlib

/-!
# SmartCue: reminder parsing, distances and location triggers

A shallow embedding of `NLPService` (`backend/services/nlpService.js`) and of
the pieces of the JavaScript runtime it relies on (strings as UTF-16 code
units, `trim`, `includes`, `toLowerCase`, `String.prototype.match` / `replace`
with the backtracking semantics of ECMAScript regular expressions), of the
distance functions of `GoogleMapsService`
(`backend/services/googleMapsService.js`) and of the handlers of
`backend/controllers/reminderController.js` that use them.
-/

namespace SmartCue

/-! ## JavaScript strings -/

/-- A JavaScript string is a sequence of UTF-16 code units. -/
abbrev JSString := List Nat

/-- UTF-16 encoding of one Unicode scalar value. -/
def encodeUnit (c : Char) : List Nat :=
  if c.toNat < 65536 then [c.toNat]
  else [55296 + (c.toNat - 65536) / 1024, 56320 + (c.toNat - 65536) % 1024]

/-- The JavaScript string denoted by a string literal. -/
def utf16 (s : String) : JSString := s.toList.flatMap encodeUnit

/-- ECMAScript `WhiteSpace` and `LineTerminator` code units: what `\s` matches
and what `trim` strips. -/
def isWhiteSpace (u : Nat) : Bool :=
  u == 9 || u == 10 || u == 11 || u == 12 || u == 13 || u == 32 || u == 160 ||
  u == 5760 || (8192 ≤ u && u ≤ 8202) || u == 8232 || u == 8233 || u == 8239 ||
  u == 8287 || u == 12288 || u == 65279

/-- ECMAScript `LineTerminator` code units: what `.` does not match. -/
def isLineTerminator (u : Nat) : Bool :=
  u == 10 || u == 13 || u == 8232 || u == 8233

/-- `String.prototype.trim`. -/
def trim (s : JSString) : JSString :=
  ((s.dropWhile isWhiteSpace).reverse.dropWhile isWhiteSpace).reverse

/-- Does `s` start with `k`? -/
def startsWith : JSString → JSString → Bool
  | _, [] => true
  | [], _ :: _ => false
  | c :: cs, d :: ds => c == d && startsWith cs ds

/-- `String.prototype.includes`: `k` occurs in `s` as a run of consecutive
code units. -/
def includes : JSString → JSString → Bool
  | [], k => startsWith [] k
  | c :: cs, k => startsWith (c :: cs) k || includes cs k

/-- Lower-casing of one code unit. `A`-`Z` map to `a`-`z`; the two code units
outside ASCII whose lower case contains an ASCII letter are U+0130 (to `i`
followed by U+0307) and U+212A (to `k`). Every other code unit outside ASCII
lower-cases to code units outside ASCII and is kept as it is: the keywords
searched in a lower-cased text are all ASCII. -/
def lowerUnit (u : Nat) : List Nat :=
  if 65 ≤ u ∧ u ≤ 90 then [u + 32]
  else if u = 304 then [105, 775]
  else if u = 8490 then [107]
  else [u]

/-- `String.prototype.toLowerCase`. -/
def toLowerCase (s : JSString) : JSString := s.flatMap lowerUnit

/-- `s.replace(pat, '')` for a string pattern: the first occurrence of `pat`
is removed; `s` is returned unchanged when `pat` does not occur. -/
def removeFirst : JSString → JSString → JSString
  | [], _ => []
  | c :: cs, pat =>
    if startsWith (c :: cs) pat then (c :: cs).drop pat.length
    else c :: removeFirst cs pat

/-! ## Regular expressions -/

/-- The fragment of ECMAScript regular expressions used by the service.
Quantified atoms in the source are single-unit classes (`\s+`, `.+?`) or
optional items (`x?`, `(?:...)?`). -/
inductive Re where
  /-- One code unit satisfying the class. -/
  | unit (p : Nat → Bool)
  /-- The anchor `^` (no `m` flag: start of input). -/
  | bol
  /-- The anchor `$` (no `m` flag: end of input). -/
  | eol
  /-- The empty pattern. -/
  | eps
  /-- Concatenation. -/
  | seq (a b : Re)
  /-- Alternation `a|b`, left alternative first. -/
  | alt (a b : Re)
  /-- Greedy `a?`. -/
  | opt (a : Re)
  /-- Greedy `c+` over a single-unit class. -/
  | plus (p : Nat → Bool)
  /-- Lazy `c+?` over a single-unit class. -/
  | plusLazy (p : Nat → Bool)
  /-- Capture group number 1. -/
  | group (a : Re)

/-- State of the backtracking matcher: number of code units before the
current position, the input from the current position on, and capture 1. -/
structure MatchState where
  pos : Nat
  rest : JSString
  capture : Option JSString

/-- Greedy `c*` followed by the continuation `k`. -/
def starGreedy (p : Nat → Bool) (cap : Option JSString)
    (k : MatchState → Option MatchState) : Nat → JSString → Option MatchState
  | pos, [] => k ⟨pos, [], cap⟩
  | pos, c :: cs =>
    if p c then
      (starGreedy p cap k (pos + 1) cs).orElse (fun _ => k ⟨pos, c :: cs, cap⟩)
    else k ⟨pos, c :: cs, cap⟩

/-- Lazy `c*?` followed by the continuation `k`. -/
def starLazy (p : Nat → Bool) (cap : Option JSString)
    (k : MatchState → Option MatchState) : Nat → JSString → Option MatchState
  | pos, [] => k ⟨pos, [], cap⟩
  | pos, c :: cs =>
    (k ⟨pos, c :: cs, cap⟩).orElse
      (fun _ => if p c then starLazy p cap k (pos + 1) cs else none)

/-- The backtracking matcher in continuation-passing style: `re.run s k` is
the first way, in the priority order of ECMAScript, to match `re` from state
`s` such that the continuation `k` succeeds on the state reached. -/
def Re.run : Re → MatchState → (MatchState → Option MatchState) → Option MatchState
  | .unit p, s, k =>
    match s.rest with
    | [] => none
    | c :: cs => if p c then k ⟨s.pos + 1, cs, s.capture⟩ else none
  | .bol, s, k => if s.pos = 0 then k s else none
  | .eol, s, k => if s.rest.isEmpty then k s else none
  | .eps, s, k => k s
  | .seq a b, s, k => a.run s (fun s1 => b.run s1 k)
  | .alt a b, s, k => (a.run s k).orElse (fun _ => b.run s k)
  | .opt a, s, k => (a.run s k).orElse (fun _ => k s)
  | .plus p, s, k =>
    match s.rest with
    | [] => none
    | c :: cs => if p c then starGreedy p s.capture k (s.pos + 1) cs else none
  | .plusLazy p, s, k =>
    match s.rest with
    | [] => none
    | c :: cs => if p c then starLazy p s.capture k (s.pos + 1) cs else none
  | .group a, s, k =>
    a.run s (fun s1 => k ⟨s1.pos, s1.rest, some (s.rest.take (s1.pos - s.pos))⟩)

/-- What `text.match(re)` yields for a non-global `re`: `index`, the matched
text `match[0]` and capture `match[1]`. -/
structure Match where
  index : Nat
  matched : JSString
  capture : Option JSString
  deriving DecidableEq, Repr

/-- Try the pattern at the current position, then at each later one. -/
def Re.execFrom (re : Re) : Nat → JSString → Option Match
  | pos, [] =>
    match re.run ⟨pos, [], none⟩ some with
    | some s => some ⟨pos, [], s.capture⟩
    | none => none
  | pos, c :: cs =>
    match re.run ⟨pos, c :: cs, none⟩ some with
    | some s => some ⟨pos, (c :: cs).take (s.pos - pos), s.capture⟩
    | none => re.execFrom (pos + 1) cs

/-- `text.match(re)`: the leftmost match, `none` for `null`. -/
def Re.exec (re : Re) (text : JSString) : Option Match := re.execFrom 0 text

/-- `text.replace(re, '')` for a non-global `re`: the leftmost match is
removed; `text` is returned unchanged when there is none. -/
def Re.remove (re : Re) (text : JSString) : JSString :=
  match re.exec text with
  | some m => text.take m.index ++ text.drop (m.index + m.matched.length)
  | none => text

/-! ## The patterns of the service -/

/-- Case folding of the `i` flag (ECMAScript `Canonicalize` without the `u`
flag) as far as it concerns ASCII pattern letters: a code unit outside ASCII
never folds to an ASCII one. -/
def canonicalize (u : Nat) : Nat := if 97 ≤ u ∧ u ≤ 122 then u - 32 else u

/-- A literal character of a pattern without the `i` flag. -/
def Re.ch (c : Char) : Re := .unit (fun u => u == c.toNat)

/-- A literal character of a pattern with the `i` flag. -/
def Re.chI (c : Char) : Re := .unit (fun u => canonicalize u == canonicalize c.toNat)

/-- Concatenation of a list of patterns. -/
def Re.cat : List Re → Re
  | [] => .eps
  | [a] => a
  | a :: as => .seq a (Re.cat as)

/-- A literal word of a pattern with the `i` flag. -/
def Re.wordI (s : String) : Re := Re.cat (s.toList.map Re.chI)

/-- `\s+`. -/
def Re.spaces : Re := .plus isWhiteSpace

/-- `.+?` (no `s` flag: `.` matches every code unit but line terminators). -/
def Re.anyLazy : Re := .plusLazy (fun u => !isLineTerminator u)

/-- `(?:\.|,|$)`. -/
def Re.stop : Re := .alt (Re.ch '.') (.alt (Re.ch ',') .eol)

/-- `(?:when|if|once)`. -/
def Re.whenIfOnce : Re := .alt (Re.wordI "when") (.alt (Re.wordI "if") (Re.wordI "once"))

/-- `(?:at|near|in|by)`. -/
def Re.atNearInBy : Re :=
  .alt (Re.wordI "at") (.alt (Re.wordI "near") (.alt (Re.wordI "in") (Re.wordI "by")))

/-- The part of the first pattern before the place:
`(?:when|if|once)\s+(?:I'?m?|I\s+am)\s+(?:at|near|in|by)\s+`. -/
def Re.conditionalHead : Re :=
  Re.cat [Re.whenIfOnce, Re.spaces,
    .alt (Re.cat [Re.chI 'I', .opt (Re.chI (Char.ofNat 39)), .opt (Re.chI 'm')])
         (Re.cat [Re.chI 'I', Re.spaces, Re.wordI "am"]),
    Re.spaces, Re.atNearInBy, Re.spaces]

/-- The part of the second pattern before the place:
`(?:at|near|in|by)\s+(?:the\s+)?`. -/
def Re.bareHead : Re :=
  Re.cat [Re.atNearInBy, Re.spaces, .opt (Re.cat [Re.wordI "the", Re.spaces])]

/-- The part of the third pattern before the place:
`(?:when|if|once)\s+(?:I|we)\s+(?:reach|get\s+to|arrive\s+at)\s+`. -/
def Re.arrivalHead : Re :=
  Re.cat [Re.whenIfOnce, Re.spaces, .alt (Re.chI 'I') (Re.wordI "we"), Re.spaces,
    .alt (Re.wordI "reach")
      (.alt (Re.cat [Re.wordI "get", Re.spaces, Re.wordI "to"])
            (Re.cat [Re.wordI "arrive", Re.spaces, Re.wordI "at"])),
    Re.spaces]

/-- First entry of `locationPatterns` in `extractLocationTriggers`, the
conditional-proximity form:
`/(?:when|if|once)\s+(?:I'?m?|I\s+am)\s+(?:at|near|in|by)\s+(.+?)(?:\.|,|$)/i`. -/
def conditionalPattern : Re := Re.cat [Re.conditionalHead, .group Re.anyLazy, Re.stop]

/-- Second entry, the bare-proximity form:
`/(?:at|near|in|by)\s+(?:the\s+)?(.+?)(?:\.|,|$)/i`. -/
def barePattern : Re := Re.cat [Re.bareHead, .group Re.anyLazy, Re.stop]

/-- Third entry, the arrival form:
`/(?:when|if|once)\s+(?:I|we)\s+(?:reach|get\s+to|arrive\s+at)\s+(.+?)(?:\.|,|$)/i`. -/
def arrivalPattern : Re := Re.cat [Re.arrivalHead, .group Re.anyLazy, Re.stop]

/-- `locationPatterns` of `extractLocationTriggers`. -/
def locationPatterns : List Re := [conditionalPattern, barePattern, arrivalPattern]

/-- First entry of `locationPatterns` in `extractTask`: the conditional form
without the capture group, `... \s+.+?(?:\.|,|$)/i`. -/
def conditionalPhrase : Re := Re.cat [Re.conditionalHead, Re.anyLazy, Re.stop]

/-- Second entry in `extractTask`: the bare form without the capture group. -/
def barePhrase : Re := Re.cat [Re.bareHead, Re.anyLazy, Re.stop]

/-- Third entry in `extractTask`: the arrival form without the capture group. -/
def arrivalPhrase : Re := Re.cat [Re.arrivalHead, Re.anyLazy, Re.stop]

/-- `locationPatterns` of `extractTask`. -/
def taskLocationPatterns : List Re := [conditionalPhrase, barePhrase, arrivalPhrase]

/-- `/^(?:remind\s+me\s+to|remember\s+to)\s+/i`. -/
def remindPattern : Re :=
  Re.cat [.bol,
    .alt (Re.cat [Re.wordI "remind", Re.spaces, Re.wordI "me", Re.spaces, Re.wordI "to"])
         (Re.cat [Re.wordI "remember", Re.spaces, Re.wordI "to"]),
    Re.spaces]

/-- `/[,.]$/`. -/
def punctuationPattern : Re :=
  Re.cat [.unit (fun u => u == ','.toNat || u == '.'.toNat), .eol]

/-! ## The service -/

/-- A JavaScript `Date`, as its time value. -/
abbrev Date := Int

/-- One result of the date recognizer `chrono.parse`: the matched text and
`start.date()`. -/
structure ParsedResult where
  text : JSString
  date : Date
  deriving DecidableEq, Repr

/-- The object returned by `extractLocationTriggers`. -/
structure Location where
  placeName : JSString
  radius : Nat
  deriving DecidableEq, Repr

/-- The values of `category` that the service produces. -/
inductive Category where
  | Groceries | Bills | Work | Health | Shopping | Personal
  deriving DecidableEq, Repr

/-- The values of `priority`. -/
inductive Priority where
  | high | medium | low
  deriving DecidableEq, Repr

/-- The values of `triggerType`. -/
inductive TriggerType where
  | time | location | both
  deriving DecidableEq, Repr

/-- The object returned by `parseReminder`. -/
structure ParsedReminder where
  originalInput : JSString
  task : JSString
  location : Option Location
  dueDate : Option Date
  category : Category
  priority : Priority
  triggerType : TriggerType
  deriving DecidableEq, Repr

/-- `NLPService.extractLocationTriggers`: the patterns are tried in order and
the first that matches decides; `match[1]` is `[]` here should the group not
have taken part in the match. -/
def extractLocationTriggers (text : JSString) : Option Location :=
  locationPatterns.findSome? fun pattern =>
    match pattern.exec text with
    | some m => some ⟨trim (m.capture.getD []), 500⟩
    | none => none

/-- The value of `task` in `NLPService.extractTask` after its first step:
`task.replace(dateResults[0].text, '').trim()` when a date was found. -/
def withoutDate (input : JSString) (dateResults : List ParsedResult) : JSString :=
  match dateResults with
  | r :: _ => trim (removeFirst input r.text)
  | [] => input

/-- The value of `task` in `NLPService.extractTask` before its last line: the
date text, the location phrases, the leading request and one trailing
punctuation mark removed, with a `trim` after each step. -/
def strippedTask (input : JSString) (dateResults : List ParsedResult)
    (locationTriggers : Option Location) : JSString :=
  let task := withoutDate input dateResults
  let task :=
    if locationTriggers.isSome then
      taskLocationPatterns.foldl (fun task pattern => trim (pattern.remove task)) task
    else task
  let task := trim (remindPattern.remove task)
  trim (punctuationPattern.remove task)

/-- `NLPService.extractTask`: its last line is `return task || input`. -/
def extractTask (input : JSString) (dateResults : List ParsedResult)
    (locationTriggers : Option Location) : JSString :=
  let task := strippedTask input dateResults locationTriggers
  if task.isEmpty then input else task

/-- The `categories` object of `categorizeReminder`, in the order of its keys. -/
def categories : List (Category × List JSString) :=
  [(.Groceries, ["grocery", "store", "supermarket", "buy", "milk", "bread", "food",
      "shopping"].map utf16),
   (.Bills, ["bill", "payment", "pay", "electricity", "water", "rent",
      "insurance"].map utf16),
   (.Work, ["work", "office", "meeting", "presentation", "report", "email",
      "call"].map utf16),
   (.Health, ["doctor", "appointment", "medicine", "pharmacy", "workout", "exercise",
      "gym"].map utf16),
   (.Shopping, ["shop", "buy", "purchase", "mall"].map utf16)]

/-- `NLPService.categorizeReminder`. -/
def categorizeReminder (text : JSString) : Category :=
  let lowerText := toLowerCase text
  (categories.findSome? fun entry =>
    entry.2.findSome? fun keyword =>
      if includes lowerText keyword then some entry.1 else none).getD .Personal

/-- `highPriorityKeywords`. -/
def highPriorityKeywords : List JSString :=
  ["urgent", "important", "asap", "immediately", "critical"].map utf16

/-- `lowPriorityKeywords`. -/
def lowPriorityKeywords : List JSString :=
  ["maybe", "sometime", "eventually", "when possible"].map utf16

/-- `NLPService.determinePriority`. -/
def determinePriority (text : JSString) : Priority :=
  let lowerText := toLowerCase text
  if highPriorityKeywords.any (fun keyword => includes lowerText keyword) then .high
  else if lowPriorityKeywords.any (fun keyword => includes lowerText keyword) then .low
  else .medium

/-- `NLPService.parseReminder`, over the date recognizer `chrono.parse`. -/
def parseReminder (chronoParse : JSString → List ParsedResult) (input : JSString) :
    ParsedReminder :=
  let dateResults := chronoParse input
  let dueDate : Option Date :=
    match dateResults with
    | r :: _ => some r.date
    | [] => none
  let locationTriggers := extractLocationTriggers input
  let triggerType : TriggerType :=
    match locationTriggers with
    | some _ => if dueDate.isSome then .both else .location
    | none => .time
  { originalInput := input
    task := extractTask input dateResults locationTriggers
    location := locationTriggers
    dueDate := dueDate
    category := categorizeReminder input
    priority := determinePriority input
    triggerType := triggerType }

/-- Does every match of the pattern set capture 1? -/
def Re.captures : Re → Bool
  | .group _ => true
  | .seq a b => a.captures || b.captures
  | _ => false

/-! ## Task extraction as the specification words it -/

/-- Step 3 of the specification for the location phrase: the patterns are
tried in order against the remaining text and only the first that matches is
stripped. -/
def specStripLocation : List Re → JSString → JSString
  | [], task => task
  | pattern :: later, task =>
    match pattern.exec task with
    | some _ => trim (pattern.remove task)
    | none => specStripLocation later task

/-- Task extraction with the location step of the specification in place of
the loop of `extractTask`; every other step is that of `extractTask`. -/
def specExtractTask (input : JSString) (dateResults : List ParsedResult)
    (locationTriggers : Option Location) : JSString :=
  let task := withoutDate input dateResults
  let task :=
    if locationTriggers.isSome then specStripLocation taskLocationPatterns task
    else task
  let task := trim (remindPattern.remove task)
  let task := trim (punctuationPattern.remove task)
  if task.isEmpty then input else task

/-! ## Inputs of the examples -/

/-- First example of the specification. -/
def buyMilkText : JSString := utf16 "Remind me to buy milk when I'm near a grocery store"

/-- Second example of the specification. -/
def payBillText : JSString := utf16 "Pay electricity bill before Sunday"

/-- Third example of the specification. -/
def callJohnText : JSString := utf16 "Call John when I reach office"

/-- An input with two location phrases. -/
def twoPhrasesText : JSString := utf16 "Buy milk at the store, when I'm near home"

/-- An input with a leading request and nothing else the parser recognizes. -/
def danceText : JSString := utf16 "Remind me to dance"

/-- An input in which the parser recognizes nothing. -/
def helloText : JSString := utf16 "hello world"

/-- An input with a Groceries and a Bills keyword. -/
def groceryBillText : JSString := utf16 "Pay the Grocery bill"

/-- A date recognizer that finds nothing. -/
def noDates : JSString → List ParsedResult := fun _ => []

/-! ## Distances (`backend/services/googleMapsService.js`)

JavaScript numbers are taken as real numbers, so `calculateDistance` below is
the function in exact arithmetic. The program computes in doubles and rounds
every operation; where a rounded value leaves the domain of `Math.sqrt` the
program yields `NaN`, which `distanceOfTerm` keeps as `none`. -/

/-- `Math.atan2(y, x)` over the real numbers: the angle in `(-π, π]` of the
point `(x, y)`, and 0 at the origin. -/
noncomputable def atan2 (y x : ℝ) : ℝ := Complex.arg ⟨x, y⟩

/-- `GoogleMapsService.calculateDistance`, in exact arithmetic. -/
noncomputable def calculateDistance (lat1 lng1 lat2 lng2 : ℝ) : ℝ :=
  let R : ℝ := 6371000
  let φ1 := lat1 * Real.pi / 180
  let φ2 := lat2 * Real.pi / 180
  let Δφ := (lat2 - lat1) * Real.pi / 180
  let Δl := (lng2 - lng1) * Real.pi / 180
  let a := Real.sin (Δφ / 2) * Real.sin (Δφ / 2) +
           Real.cos φ1 * Real.cos φ2 *
           Real.sin (Δl / 2) * Real.sin (Δl / 2)
  let c := 2 * atan2 (Real.sqrt a) (Real.sqrt (1 - a))
  R * c

/-- The term `a` of `calculateDistance`, in exact arithmetic. -/
noncomputable def haversineTerm (lat1 lng1 lat2 lng2 : ℝ) : ℝ :=
  let φ1 := lat1 * Real.pi / 180
  let φ2 := lat2 * Real.pi / 180
  let Δφ := (lat2 - lat1) * Real.pi / 180
  let Δl := (lng2 - lng1) * Real.pi / 180
  Real.sin (Δφ / 2) * Real.sin (Δφ / 2) +
    Real.cos φ1 * Real.cos φ2 *
    Real.sin (Δl / 2) * Real.sin (Δl / 2)

/-- `Math.sqrt`, with `none` for the `NaN` of a negative number. -/
noncomputable def Math.sqrt (x : ℝ) : Option ℝ :=
  if x < 0 then none else some (Real.sqrt x)

/-- The last two lines of `calculateDistance` on the value that the first
lines computed for `a`: `c = 2 * Math.atan2(Math.sqrt(a), Math.sqrt(1 - a))`
and `R * c`. `none` stands for `NaN`, which `Math.atan2` and the products
hand on. -/
noncomputable def distanceOfTerm (a : ℝ) : Option ℝ :=
  match Math.sqrt a, Math.sqrt (1 - a) with
  | some y, some x => some (6371000 * (2 * atan2 y x))
  | _, _ => none

/-- `GoogleMapsService.isWithinRadius`. -/
noncomputable def isWithinRadius (userLat userLng targetLat targetLng radius : ℝ) : Bool :=
  let distance := calculateDistance userLat userLng targetLat targetLng
  decide (distance ≤ radius)

/-! ## Request values and stored reminders -/

/-- A value of a field of a JSON request body. A string and an object carry
the number that the arithmetic operators convert them to (`ToNumber`), `none`
standing for `NaN`. -/
inductive JSValue where
  | undefined
  | null
  | boolean (b : Bool)
  | number (x : ℝ)
  | string (s : JSString) (asNumber : Option ℝ)
  | object (asNumber : Option ℝ)

/-- `ToBoolean`: what `!value` negates. -/
noncomputable def JSValue.truthy : JSValue → Bool
  | .undefined => false
  | .null => false
  | .boolean b => b
  | .number x => decide (x ≠ 0)
  | .string s _ => !s.isEmpty
  | .object _ => true

/-- `ToNumber`, `none` standing for `NaN`. -/
def JSValue.toNumber : JSValue → Option ℝ
  | .undefined => none
  | .null => some 0
  | .boolean b => some (if b then 1 else 0)
  | .number x => some x
  | .string _ n => n
  | .object n => n

/-- Is the value of type number? -/
def JSValue.isNumber : JSValue → Bool
  | .number _ => true
  | _ => false

/-- The values of `status` in the schema of `models/Reminder.js`. -/
inductive Status where
  | active | completed | snoozed | cancelled
  deriving DecidableEq, Repr

/-- The `location` of a reminder record: `coordinates` is `[longitude,
latitude]`; a field that is not set is `none`. In a document that the schema
built every field is set, see `schemaLocation`. -/
structure ReminderLocation where
  coordinates : Option (ℝ × ℝ)
  address : Option JSString
  placeName : Option JSString
  placeType : Option JSString
  radius : Option ℝ

/-- A reminder of `models/Reminder.js`, with the fields that the location
check reads or writes. The guard of the loop tests `location` and
`coordinates`, so both may be absent here; in a document that the schema
built from a record the location is `schemaLocation` of the record. -/
structure Reminder where
  id : Nat
  user : Nat
  status : Status
  triggerType : TriggerType
  location : Option ReminderLocation
  isTriggered : Bool
  triggeredAt : Option Date

/-- The `location` of the document that the schema of `models/Reminder.js`
builds from the `location` of a record: a field that the record does not set
takes its default, `coordinates` `[0, 0]`, `address`, `placeName` and
`placeType` `''`, `radius` 500; for a record without `location` all of them
do. -/
noncomputable def schemaLocation (location : Option ReminderLocation) : ReminderLocation :=
  let set : ReminderLocation := location.getD ⟨none, none, none, none, none⟩
  { coordinates := some (set.coordinates.getD (0, 0))
    address := some (set.address.getD [])
    placeName := some (set.placeName.getD [])
    placeType := some (set.placeType.getD [])
    radius := some (set.radius.getD 500) }

/-! ## The location check (`checkLocationReminders`) -/

/-- `reminder.location.radius || 500`: 500 for a radius that is not set and
for the radius 0. -/
noncomputable def radiusOrDefault (radius : Option ℝ) : ℝ :=
  match radius with
  | some r => if r = 0 then 500 else r
  | none => 500

/-- The condition under which the loop of `checkLocationReminders` triggers a
reminder: it has a location with coordinates, read as `[targetLng,
targetLat]`, and `isWithinRadius` holds of the position of the request; the
comparison with a `NaN` distance is false. -/
noncomputable def isNearby (latitude longitude : JSValue) (reminder : Reminder) : Bool :=
  match reminder.location with
  | some location =>
    match location.coordinates with
    | some (targetLng, targetLat) =>
      let radius := radiusOrDefault location.radius
      match latitude.toNumber, longitude.toNumber with
      | some lat, some lng => isWithinRadius lat lng targetLat targetLng radius
      | _, _ => false
    | none => false
  | none => false

/-- The assignments `reminder.isTriggered = true; reminder.triggeredAt = new
Date()`. -/
def markTriggered (now : Date) (reminder : Reminder) : Reminder :=
  { reminder with isTriggered := true, triggeredAt := some now }

/-- The loop of `checkLocationReminders` over the reminders still to visit,
with `triggeredReminders` so far. `saveOk` tells whether `reminder.save()`
succeeds. The result is `triggeredReminders` at the end of the loop, or as
an error, when a save throws, the reminders saved before it. -/
noncomputable def triggerLoop (saveOk : Reminder → Bool) (now : Date)
    (latitude longitude : JSValue) :
    List Reminder → List Reminder → Except (List Reminder) (List Reminder)
  | [], triggeredReminders => .ok triggeredReminders
  | reminder :: rest, triggeredReminders =>
    if isNearby latitude longitude reminder then
      if saveOk (markTriggered now reminder) then
        triggerLoop saveOk now latitude longitude rest
          (triggeredReminders ++ [markTriggered now reminder])
      else .error triggeredReminders
    else triggerLoop saveOk now latitude longitude rest triggeredReminders

/-- The responses of `checkLocationReminders`: status 400 with "Please provide
latitude and longitude", status 200 with `count` and `data`, status 500 with
"Server error". -/
inductive CheckResponse where
  | badRequest
  | ok (count : Nat) (data : List Reminder)
  | serverError

/-- What an invocation of `checkLocationReminders` did: whether it ran the
query `Reminder.find`, the documents it saved, in order, and its response. -/
structure CheckOutcome where
  queried : Bool
  saved : List Reminder
  response : CheckResponse

/-- The handler `checkLocationReminders`. `find` is the result of the query
`Reminder.find` for the user of the request (`none` when it throws). -/
noncomputable def checkLocationReminders (find : Option (List Reminder))
    (saveOk : Reminder → Bool) (now : Date) (latitude longitude : JSValue) :
    CheckOutcome :=
  if !latitude.truthy || !longitude.truthy then ⟨false, [], .badRequest⟩
  else
    match find with
    | none => ⟨true, [], .serverError⟩
    | some reminders =>
      match triggerLoop saveOk now latitude longitude reminders [] with
      | .ok triggeredReminders =>
        ⟨true, triggeredReminders, .ok triggeredReminders.length triggeredReminders⟩
      | .error saved => ⟨true, saved, .serverError⟩

/-! ## Invocations of the location check that overlap

The handler is suspended at each `await`: at the query `Reminder.find` and at
each `reminder.save()`. Between two of these points it runs without
interruption, so an invocation is a sequence of steps, and two invocations
interleave their steps. The first step is the code up to the first `await`:
the check of the position, and the call of the query. Each later step is the
access to the collection that the invocation is suspended at, and the code
that follows it up to the next `await`. The collection answers every query
and every save. -/

/-- The reminder collection. -/
abbrev Store := List Reminder

/-- The query of `checkLocationReminders`: `Reminder.find` with `user`,
`status: 'active'`, `triggerType: { $in: ['location', 'both'] }` and
`isTriggered: false`. -/
def Store.find (store : Store) (user : Nat) : List Reminder :=
  store.filter fun r =>
    r.user == user && r.status == .active &&
      (r.triggerType == .location || r.triggerType == .both) && !r.isTriggered

/-- The effect of `reminder.save()` after the assignments of the loop: the
stored document with the `id` of `doc` takes its `isTriggered` and
`triggeredAt`. The write carries no condition on the stored `isTriggered`. -/
def Store.save (store : Store) (doc : Reminder) : Store :=
  store.map fun r =>
    if r.id = doc.id then
      { r with isTriggered := doc.isTriggered, triggeredAt := doc.triggeredAt }
    else r

/-- Where an invocation stands: not yet started, suspended at the query,
suspended at the save of a reminder it has marked (with the reminders still
to visit and `triggeredReminders`), done with the `data` of its response of
status 200, or done with the response of status 400. -/
inductive Invocation where
  | start
  | atFind
  | atSave (reminder : Reminder) (rest triggeredReminders : List Reminder)
  | responded (data : List Reminder)
  | rejected

/-- The loop from a list of reminders still to visit up to the next
`await reminder.save()`, or to the response. -/
noncomputable def resume (now : Date) (latitude longitude : JSValue) :
    List Reminder → List Reminder → Invocation
  | [], triggeredReminders => .responded triggeredReminders
  | reminder :: rest, triggeredReminders =>
    if isNearby latitude longitude reminder then
      .atSave (markTriggered now reminder) rest triggeredReminders
    else resume now latitude longitude rest triggeredReminders

/-- One step of an invocation: from the start the check `!latitude ||
!longitude`, which ends the invocation with status 400 or lets it call the
query; later the access to the collection it is suspended at, then the loop
up to the next `await`. -/
noncomputable def Invocation.step (user : Nat) (now : Date) (latitude longitude : JSValue)
    (store : Store) : Invocation → Store × Invocation
  | .start =>
    if !latitude.truthy || !longitude.truthy then (store, .rejected)
    else (store, .atFind)
  | .atFind => (store, resume now latitude longitude (store.find user) [])
  | .atSave reminder rest triggeredReminders =>
    (store.save reminder,
      resume now latitude longitude rest (triggeredReminders ++ [reminder]))
  | .responded data => (store, .responded data)
  | .rejected => (store, .rejected)

/-- Steps of one invocation running alone. -/
noncomputable def Invocation.steps (user : Nat) (now : Date) (latitude longitude : JSValue) :
    Nat → Store × Invocation → Store × Invocation
  | 0, state => state
  | n + 1, state =>
    Invocation.steps user now latitude longitude n
      (state.2.step user now latitude longitude state.1)

/-- Which of two invocations makes the next step. -/
inductive Turn where
  | first | second
  deriving DecidableEq, Repr

/-- Two invocations of one user at one position, and the collection. -/
structure Concurrent where
  store : Store
  first : Invocation
  second : Invocation

/-- The two invocations run in the order of a schedule. -/
noncomputable def Concurrent.run (user : Nat) (now : Date) (latitude longitude : JSValue) :
    List Turn → Concurrent → Concurrent
  | [], state => state
  | .first :: schedule, state =>
    Concurrent.run user now latitude longitude schedule
      { state with
        store := (state.first.step user now latitude longitude state.store).1
        first := (state.first.step user now latitude longitude state.store).2 }
  | .second :: schedule, state =>
    Concurrent.run user now latitude longitude schedule
      { state with
        store := (state.second.step user now latitude longitude state.store).1
        second := (state.second.step user now latitude longitude state.store).2 }

/-- Does a response hold the reminder with this `id`? -/
def Invocation.returned (id : Nat) : Invocation → Bool
  | .responded data => data.any fun r => r.id == id
  | _ => false

/-- Has the invocation responded with status 200? -/
def Invocation.respondedOk : Invocation → Bool
  | .responded _ => true
  | _ => false

/-- The place in a schedule of the turn number `n`, from 0, of an invocation;
the length of the schedule when the invocation has no such turn. -/
def Turn.place (turn : Turn) : Nat → List Turn → Nat
  | _, [] => 0
  | n, next :: schedule =>
    if next = turn then
      match n with
      | 0 => 0
      | n + 1 => Turn.place turn n schedule + 1
    else Turn.place turn n schedule + 1

/-! ## Geocoding (`GoogleMapsService.geocodePlace`) -/

/-- One entry of `response.data.results` of the geocoding client, with the
fields that `geocodePlace` reads: `geometry.location.lng`,
`geometry.location.lat`, `formatted_address` and `types`. -/
structure GeocodeResult where
  lng : ℝ
  lat : ℝ
  formatted_address : JSString
  types : List JSString

/-- The object returned by `geocodePlace`; `coordinates` is `[lng, lat]`. -/
structure LocationData where
  coordinates : ℝ × ℝ
  address : JSString
  placeName : JSString
  placeType : JSString

/-- `GoogleMapsService.geocodePlace`. `client` is the call
`this.client.geocode` of the provider, `none` when it throws. The result is
an error when `geocodePlace` throws ("Failed to geocode location"), `none`
for `null`. -/
def geocodePlace (client : JSString → Option (List GeocodeResult)) (placeName : JSString) :
    Except Unit (Option LocationData) :=
  match client placeName with
  | none => .error ()
  | some [] => .ok none
  | some (result :: _) =>
    .ok (some
      { coordinates := (result.lng, result.lat)
        address := result.formatted_address
        placeName := placeName
        placeType :=
          match result.types with
          | t :: _ => if t.isEmpty then utf16 "unknown" else t
          | [] => utf16 "unknown" })

/-! ## Creating and parsing reminders (`reminderController.js`) -/

/-- The string of a category in `nlpService.js`. -/
def Category.toJS : Category → JSString
  | .Groceries => utf16 "Groceries"
  | .Bills => utf16 "Bills"
  | .Work => utf16 "Work"
  | .Health => utf16 "Health"
  | .Shopping => utf16 "Shopping"
  | .Personal => utf16 "Personal"

/-- The string of a priority in `nlpService.js`. -/
def Priority.toJS : Priority → JSString
  | .high => utf16 "high"
  | .medium => utf16 "medium"
  | .low => utf16 "low"

/-- The string of a trigger type in `nlpService.js`. -/
def TriggerType.toJS : TriggerType → JSString
  | .time => utf16 "time"
  | .location => utf16 "location"
  | .both => utf16 "both"

/-- The fields of `req.body` that `createReminder` reads or that decide a
field it writes; a field that the body does not hold is `none`. -/
structure ReminderBody where
  user : Option Nat
  title : Option JSString
  originalInput : Option JSString
  category : Option JSString
  priority : Option JSString
  triggerType : Option JSString
  dueDate : Option Date
  location : Option ReminderLocation

/-- The record `reminderData` that `createReminder` passes to
`Reminder.create`. -/
structure ReminderData where
  user : Nat
  title : Option JSString
  originalInput : Option JSString
  category : Option JSString
  priority : Option JSString
  triggerType : Option JSString
  dueDate : Option Date
  location : Option ReminderLocation

/-- Truth value of a field that holds a string, if it is set. -/
def isSet (field : Option JSString) : Bool :=
  match field with
  | some s => !s.isEmpty
  | none => false

/-- `a || b` for a string `a`. -/
def orField (a : JSString) (b : Option JSString) : Option JSString :=
  if a.isEmpty then b else some a

/-- The record `reminderData` of `createReminder` at the call of
`Reminder.create`, for the authenticated user `userId`. -/
noncomputable def reminderData (chronoParse : JSString → List ParsedResult)
    (client : JSString → Option (List GeocodeResult)) (userId : Nat)
    (body : ReminderBody) : ReminderData :=
  let reminderData : ReminderData :=
    { user := body.user.getD userId
      title := body.title
      originalInput := body.originalInput
      category := body.category
      priority := body.priority
      triggerType := body.triggerType
      dueDate := body.dueDate
      location := body.location }
  if isSet reminderData.originalInput && !isSet reminderData.title then
    let parsed := parseReminder chronoParse (reminderData.originalInput.getD [])
    let reminderData : ReminderData :=
      { reminderData with
        title := some parsed.task
        category := orField parsed.category.toJS reminderData.category
        priority := orField parsed.priority.toJS reminderData.priority
        triggerType := orField parsed.triggerType.toJS reminderData.triggerType
        dueDate :=
          match parsed.dueDate with
          | some date => some date
          | none => reminderData.dueDate }
    match parsed.location with
    | some location =>
      if !location.placeName.isEmpty then
        match geocodePlace client location.placeName with
        | .ok (some locationData) =>
          { reminderData with
            location := some
              { coordinates := some locationData.coordinates
                address := some locationData.address
                placeName := some location.placeName
                placeType := some locationData.placeType
                radius := some (if location.radius = 0 then 500 else (location.radius : ℝ)) } }
        | .ok none => reminderData
        | .error _ => reminderData
      else reminderData
    | none => reminderData
  else reminderData

/-- The responses of `createReminder`: status 201 with the created reminder,
status 500 with "Server error". -/
inductive CreateResponse where
  | created (record : ReminderData)
  | serverError

/-- The handler `createReminder`; `createOk` tells whether `Reminder.create`
accepts the record. -/
noncomputable def createReminder (chronoParse : JSString → List ParsedResult)
    (client : JSString → Option (List GeocodeResult)) (createOk : ReminderData → Bool)
    (userId : Nat) (body : ReminderBody) : CreateResponse :=
  if createOk (reminderData chronoParse client userId body) then
    .created (reminderData chronoParse client userId body)
  else .serverError

/-- The responses of the handler `parseReminder`: status 400 with "Please
provide reminder text", status 200 with `data: parsed`, given as the parse
result and the value of `parsed.location` in the response. -/
inductive ParseResponse where
  | badRequest
  | ok (parsed : ParsedReminder) (location : Option ReminderLocation)

/-- The handler `parseReminder` of the controller, on the `text` of the
body. -/
noncomputable def ReminderController.parseReminder
    (chronoParse : JSString → List ParsedResult)
    (client : JSString → Option (List GeocodeResult)) (text : Option JSString) :
    ParseResponse :=
  if !isSet text then .badRequest
  else
    let parsed := SmartCue.parseReminder chronoParse (text.getD [])
    match parsed.location with
    | some location =>
      let plain : ReminderLocation :=
        { coordinates := none, address := none, placeName := some location.placeName,
          placeType := none, radius := some (location.radius : ℝ) }
      if !location.placeName.isEmpty then
        match geocodePlace client location.placeName with
        | .ok (some locationData) =>
          .ok parsed (some
            { coordinates := some locationData.coordinates
              address := some locationData.address
              placeName := some locationData.placeName
              placeType := some locationData.placeType
              radius := some (location.radius : ℝ) })
        | .ok none => .ok parsed (some plain)
        | .error _ => .ok parsed (some plain)
      else .ok parsed (some plain)
    | none => .ok parsed none

/-! ## The location check against the collection -/

/-- The `data` of a response of `checkLocationReminders`, empty for the two
error responses. -/
def CheckResponse.data : CheckResponse → List Reminder
  | .ok _ data => data
  | _ => []

/-- An invocation of `checkLocationReminders` that runs alone against the
collection: the handler on the result of its query, and the collection after
the saves of the invocation. -/
noncomputable def checkOnStore (store : Store) (user : Nat) (saveOk : Reminder → Bool)
    (now : Date) (latitude longitude : JSValue) : Store × CheckOutcome :=
  let outcome :=
    checkLocationReminders (some (store.find user)) saveOk now latitude longitude
  (outcome.saved.foldl Store.save store, outcome)

/-- The words of a text: its maximal runs of code units that are not white
space. -/
def words (text : JSString) : List JSString :=
  (text.splitOnP isWhiteSpace).filter fun w => !w.isEmpty

/-! ## Documents of the examples -/

/-- A location at longitude 2, latitude 1, with no radius set. -/
def homeLocation : ReminderLocation :=
  { coordinates := some (2, 1), address := none, placeName := some (utf16 "home"),
    placeType := none, radius := none }

/-- An untouched location reminder of user 7 at `homeLocation`. -/
def homeReminder : Reminder :=
  { id := 1, user := 7, status := .active, triggerType := .location,
    location := some homeLocation, isTriggered := false, triggeredAt := none }

/-- An untouched location reminder of user 7 without a location. -/
def bareReminder : Reminder :=
  { id := 2, user := 7, status := .active, triggerType := .location,
    location := none, isTriggered := false, triggeredAt := none }

/-- A second untouched reminder of user 7 at the same place, radius 300. -/
def officeReminder : Reminder :=
  { id := 3, user := 7, status := .active, triggerType := .both,
    location := some { homeLocation with radius := some 300 },
    isTriggered := false, triggeredAt := none }

/-! ## Requests of the examples -/

/-- A body with an input to parse and explicit category, priority, trigger
type and due date. -/
def explicitBody : ReminderBody :=
  { user := none, title := none, originalInput := some payBillText,
    category := some (utf16 "Work"), priority := some (utf16 "high"),
    triggerType := some (utf16 "location"), dueDate := some 5, location := none }

/-- A body that holds only the input "Call John when I reach office". -/
def callJohnBody : ReminderBody :=
  { user := none, title := none, originalInput := some callJohnText,
    category := none, priority := none, triggerType := none, dueDate := none,
    location := none }

/-- A geocoding client whose call throws. -/
def failingClient : JSString → Option (List GeocodeResult) := fun _ => none

/-- A geocoding client that finds no result. -/
def emptyClient : JSString → Option (List GeocodeResult) := fun _ => some []

/-- A geocoding client that resolves every place to longitude 2, latitude 1. -/
def officeClient : JSString → Option (List GeocodeResult) := fun _ =>
  some [{ lng := 2, lat := 1, formatted_address := utf16 "1 Main Street",
          types := [utf16 "premise"] }]

/-- An input that holds no location word but the letters "at" in "Eat". -/
def eatLunchText : JSString := utf16 "Eat lunch"

/-- An input that ends with "at" and two blanks. -/
def meetText : JSString := utf16 "Meet me at  "

/-- A body that names another user than the authenticated one as owner. -/
def foreignBody : ReminderBody :=
  { user := some 9, title := some (utf16 "Buy milk"),
    originalInput := some (utf16 "Buy milk"), category := none, priority := none,
    triggerType := none, dueDate := none, location := none }

/-- The document of the reminder that `createReminder` stores for user 7 and
the body that holds only "Call John when I reach office" when the geocoder
throws: the trigger type is 'location', and the location of the record
passes through the schema. -/
noncomputable def unlocatedReminder : Reminder :=
  { id := 4, user := 7, status := .active, triggerType := .location,
    location := some
      (schemaLocation (reminderData noDates failingClient 7 callJohnBody).location),
    isTriggered := false, triggeredAt := none }

/-! ## The matcher: a pattern with a capture group captures -/

theorem orElse_eq_some {α : Type} {a : Option α} {f : Unit → Option α} {r : α}
    (h : a.orElse f = some r) : a = some r ∨ f () = some r := by
  cases a with
  | none => exact Or.inr h
  | some v => exact Or.inl h

theorem starGreedy_some {p : Nat → Bool} {cap : Option JSString}
    {k : MatchState → Option MatchState} {r : MatchState} :
    ∀ (rest : JSString) (pos : Nat), starGreedy p cap k pos rest = some r →
      ∃ pos1 rest1, k ⟨pos1, rest1, cap⟩ = some r := by
  intro rest
  induction rest with
  | nil => intro pos h; exact ⟨pos, [], h⟩
  | cons c cs ih =>
    intro pos h
    unfold starGreedy at h
    split at h
    · rcases orElse_eq_some h with h1 | h1
      · exact ih _ h1
      · exact ⟨pos, c :: cs, h1⟩
    · exact ⟨pos, c :: cs, h⟩

theorem starLazy_some {p : Nat → Bool} {cap : Option JSString}
    {k : MatchState → Option MatchState} {r : MatchState} :
    ∀ (rest : JSString) (pos : Nat), starLazy p cap k pos rest = some r →
      ∃ pos1 rest1, k ⟨pos1, rest1, cap⟩ = some r := by
  intro rest
  induction rest with
  | nil => intro pos h; exact ⟨pos, [], h⟩
  | cons c cs ih =>
    intro pos h
    unfold starLazy at h
    rcases orElse_eq_some h with h1 | h1
    · exact ⟨pos, c :: cs, h1⟩
    · split at h1
      · exact ih _ h1
      · exact absurd h1 (by simp)

/-- A successful run hands the continuation a state in which capture 1 is
set, if the pattern contains the group outside every alternative and option
or if the capture was set before. -/
theorem Re.run_capture (re : Re) :
    ∀ (s : MatchState) (k : MatchState → Option MatchState) (r : MatchState),
      re.run s k = some r →
      ∃ s1, k s1 = some r ∧
        (re.captures = true ∨ s.capture.isSome = true → s1.capture.isSome = true) := by
  induction re with
  | unit p =>
    intro s k r h
    unfold Re.run at h
    split at h
    · exact absurd h (by simp)
    · split at h
      · exact ⟨_, h, by simp [Re.captures]⟩
      · exact absurd h (by simp)
  | bol =>
    intro s k r h
    unfold Re.run at h
    split at h
    · exact ⟨s, h, by simp [Re.captures]⟩
    · exact absurd h (by simp)
  | eol =>
    intro s k r h
    unfold Re.run at h
    split at h
    · exact ⟨s, h, by simp [Re.captures]⟩
    · exact absurd h (by simp)
  | eps =>
    intro s k r h
    exact ⟨s, h, by simp [Re.captures]⟩
  | seq a b iha ihb =>
    intro s k r h
    unfold Re.run at h
    obtain ⟨s1, h1, c1⟩ := iha s _ r h
    obtain ⟨s2, h2, c2⟩ := ihb s1 k r h1
    refine ⟨s2, h2, ?_⟩
    intro hc
    simp only [Re.captures, Bool.or_eq_true] at hc
    rcases hc with (ha | hb) | hs
    · exact c2 (Or.inr (c1 (Or.inl ha)))
    · exact c2 (Or.inl hb)
    · exact c2 (Or.inr (c1 (Or.inr hs)))
  | alt a b iha ihb =>
    intro s k r h
    unfold Re.run at h
    rcases orElse_eq_some h with h1 | h1
    · obtain ⟨s1, h2, c1⟩ := iha s k r h1
      exact ⟨s1, h2, fun hc => c1 (Or.inr (by simpa [Re.captures] using hc))⟩
    · obtain ⟨s1, h2, c1⟩ := ihb s k r h1
      exact ⟨s1, h2, fun hc => c1 (Or.inr (by simpa [Re.captures] using hc))⟩
  | opt a iha =>
    intro s k r h
    unfold Re.run at h
    rcases orElse_eq_some h with h1 | h1
    · obtain ⟨s1, h2, c1⟩ := iha s k r h1
      exact ⟨s1, h2, fun hc => c1 (Or.inr (by simpa [Re.captures] using hc))⟩
    · exact ⟨s, h1, by simp [Re.captures]⟩
  | plus p =>
    intro s k r h
    unfold Re.run at h
    split at h
    · exact absurd h (by simp)
    · split at h
      · obtain ⟨pos1, rest1, h1⟩ := starGreedy_some _ _ h
        exact ⟨_, h1, by simp [Re.captures]⟩
      · exact absurd h (by simp)
  | plusLazy p =>
    intro s k r h
    unfold Re.run at h
    split at h
    · exact absurd h (by simp)
    · split at h
      · obtain ⟨pos1, rest1, h1⟩ := starLazy_some _ _ h
        exact ⟨_, h1, by simp [Re.captures]⟩
      · exact absurd h (by simp)
  | group a iha =>
    intro s k r h
    unfold Re.run at h
    obtain ⟨s1, h1, _⟩ := iha s _ r h
    exact ⟨_, h1, by simp⟩

theorem Re.execFrom_capture (re : Re) (hre : re.captures = true) :
    ∀ (text : JSString) (pos : Nat) (m : Match),
      re.execFrom pos text = some m → m.capture.isSome = true := by
  intro text
  induction text with
  | nil =>
    intro pos m h
    unfold Re.execFrom at h
    split at h
    · next s hs =>
      obtain ⟨s1, h1, c1⟩ := re.run_capture _ _ _ hs
      cases h1
      cases h
      exact c1 (Or.inl hre)
    · exact absurd h (by simp)
  | cons c cs ih =>
    intro pos m h
    unfold Re.execFrom at h
    split at h
    · next s hs =>
      obtain ⟨s1, h1, c1⟩ := re.run_capture _ _ _ hs
      cases h1
      cases h
      exact c1 (Or.inl hre)
    · exact ih _ _ h

/-- Capture 1 of a match of a pattern whose group is mandatory is set. -/
theorem Re.exec_capture (re : Re) (hre : re.captures = true) (text : JSString)
    (m : Match) (h : re.exec text = some m) : ∃ cap, m.capture = some cap :=
  Option.isSome_iff_exists.mp (re.execFrom_capture hre text 0 m h)

theorem locationPatterns_captures :
    ∀ pattern ∈ locationPatterns, pattern.captures = true := by decide

/-! ## Substrings and lower case -/

theorem startsWith_iff : ∀ (s k : JSString), startsWith s k = true ↔ k <+: s
  | _, [] => by simp [startsWith]
  | [], _ :: _ => by simp [startsWith]
  | c :: cs, d :: ds => by
    simp only [startsWith, Bool.and_eq_true, beq_iff_eq, startsWith_iff cs ds,
      List.cons_prefix_cons]
    constructor
    · rintro ⟨h1, h2⟩; exact ⟨h1.symm, h2⟩
    · rintro ⟨h1, h2⟩; exact ⟨h1.symm, h2⟩

/-- `includes` decides whether the keyword is a run of consecutive code units
of the text. -/
theorem includes_iff (s k : JSString) : includes s k = true ↔ k <:+: s := by
  induction s with
  | nil =>
    simp only [includes, startsWith_iff, List.infix_nil, List.prefix_nil]
  | cons c cs ih =>
    simp only [includes, Bool.or_eq_true, startsWith_iff, ih, List.infix_cons_iff]

/-- A keyword that lower-casing leaves as it is and that occurs in a text
occurs in the lower-cased text. -/
theorem includes_toLowerCase {s k : JSString} (hk : toLowerCase k = k)
    (h : includes s k = true) : includes (toLowerCase s) k = true := by
  rw [includes_iff] at h ⊢
  obtain ⟨a, b, rfl⟩ := h
  refine ⟨toLowerCase a, toLowerCase b, ?_⟩
  simp only [toLowerCase, List.flatMap_append] at hk ⊢
  rw [hk]

theorem extractLocationTriggers_eq_none_iff (text : JSString) :
    extractLocationTriggers text = none ↔
      ∀ pattern ∈ locationPatterns, pattern.exec text = none := by
  unfold extractLocationTriggers
  rw [List.findSome?_eq_none_iff]
  constructor
  · intro h pattern hp
    have := h pattern hp
    split at this
    · exact absurd this (by simp)
    · assumption
  · intro h pattern hp
    rw [h pattern hp]

/-! ## Trigger type -/

/-- C1: for every input and every result of the date recognizer, `triggerType`
is `both` exactly when `dueDate` and `location` are both present, `location`
exactly when `location` is present and `dueDate` is not, and `time` exactly in
the remaining cases, those where no location was found. -/
theorem parseReminder_triggerType_iff (chronoParse : JSString → List ParsedResult)
    (input : JSString) :
    ((parseReminder chronoParse input).triggerType = .both ↔
      (parseReminder chronoParse input).dueDate ≠ none ∧
      (parseReminder chronoParse input).location ≠ none) ∧
    ((parseReminder chronoParse input).triggerType = .location ↔
      (parseReminder chronoParse input).location ≠ none ∧
      (parseReminder chronoParse input).dueDate = none) ∧
    ((parseReminder chronoParse input).triggerType = .time ↔
      ¬ ((parseReminder chronoParse input).dueDate ≠ none ∧
          (parseReminder chronoParse input).location ≠ none) ∧
      ¬ ((parseReminder chronoParse input).location ≠ none ∧
          (parseReminder chronoParse input).dueDate = none)) := by
  unfold parseReminder
  cases chronoParse input <;> cases extractLocationTriggers input <;> simp

/-! ## The examples of the specification -/

/-- C2: when the date recognizer finds nothing in it, "Remind me to buy milk
when I'm near a grocery store" parses to task "buy milk", category Groceries,
trigger type `location` and place name "a grocery store". -/
theorem parseReminder_buy_milk (chronoParse : JSString → List ParsedResult)
    (h : chronoParse buyMilkText = []) :
    (parseReminder chronoParse buyMilkText).task = utf16 "buy milk" ∧
    (parseReminder chronoParse buyMilkText).category = .Groceries ∧
    (parseReminder chronoParse buyMilkText).triggerType = .location ∧
    (parseReminder chronoParse buyMilkText).location.map Location.placeName
      = some (utf16 "a grocery store") := by
  have e : parseReminder chronoParse buyMilkText = parseReminder noDates buyMilkText := by
    simp only [parseReminder, h, noDates]
  rw [e]
  decide

/-- Witness of C2 at the recognizer that never finds a date. -/
theorem parseReminder_buy_milk_witness :
    noDates buyMilkText = [] ∧
    (parseReminder noDates buyMilkText).task = utf16 "buy milk" ∧
    (parseReminder noDates buyMilkText).category = .Groceries ∧
    (parseReminder noDates buyMilkText).triggerType = .location ∧
    (parseReminder noDates buyMilkText).location.map Location.placeName
      = some (utf16 "a grocery store") :=
  ⟨rfl, parseReminder_buy_milk noDates rfl⟩

/-- C3: when the date recognizer finds nothing in it, "Call John when I reach
office" parses to trigger type `location`, place name "office" and a task that
contains "Call John" (it is "Call John"); the conditional and the bare pattern
do not match this text, the arrival pattern does. -/
theorem parseReminder_call_john (chronoParse : JSString → List ParsedResult)
    (h : chronoParse callJohnText = []) :
    (parseReminder chronoParse callJohnText).triggerType = .location ∧
    (parseReminder chronoParse callJohnText).location.map Location.placeName
      = some (utf16 "office") ∧
    includes (parseReminder chronoParse callJohnText).task (utf16 "Call John") = true ∧
    (parseReminder chronoParse callJohnText).task = utf16 "Call John" ∧
    (conditionalPattern.exec callJohnText).isNone = true ∧
    (barePattern.exec callJohnText).isNone = true ∧
    (arrivalPattern.exec callJohnText).isSome = true := by
  have e : parseReminder chronoParse callJohnText = parseReminder noDates callJohnText := by
    simp only [parseReminder, h, noDates]
  rw [e]
  decide

/-- Witness of C3 at the recognizer that never finds a date. -/
theorem parseReminder_call_john_witness :
    noDates callJohnText = [] ∧
    (parseReminder noDates callJohnText).triggerType = .location ∧
    (parseReminder noDates callJohnText).location.map Location.placeName
      = some (utf16 "office") ∧
    includes (parseReminder noDates callJohnText).task (utf16 "Call John") = true ∧
    (parseReminder noDates callJohnText).task = utf16 "Call John" ∧
    (conditionalPattern.exec callJohnText).isNone = true ∧
    (barePattern.exec callJohnText).isNone = true ∧
    (arrivalPattern.exec callJohnText).isSome = true :=
  ⟨rfl, parseReminder_call_john noDates rfl⟩

/-- C4: when the date recognizer returns at least one candidate for it, "Pay
electricity bill before Sunday" parses to category Bills, trigger type `time`,
the date of the first candidate as `dueDate` and no location: none of the
three location patterns matches this text. -/
theorem parseReminder_pay_bill (chronoParse : JSString → List ParsedResult)
    (first : ParsedResult) (others : List ParsedResult)
    (h : chronoParse payBillText = first :: others) :
    (parseReminder chronoParse payBillText).category = .Bills ∧
    (parseReminder chronoParse payBillText).triggerType = .time ∧
    (parseReminder chronoParse payBillText).dueDate = some first.date ∧
    (parseReminder chronoParse payBillText).location = none ∧
    (∀ pattern ∈ locationPatterns, pattern.exec payBillText = none) := by
  have hloc : extractLocationTriggers payBillText = none := by decide
  have hcat : categorizeReminder payBillText = .Bills := by decide
  have hpat : ∀ pattern ∈ locationPatterns, (pattern.exec payBillText).isNone = true := by
    decide
  refine ⟨?_, ?_, ?_, ?_, ?_⟩
  · simp only [parseReminder, hcat]
  · simp only [parseReminder, hloc]
  · simp only [parseReminder, h]
  · simp only [parseReminder, hloc]
  · intro pattern hp
    exact Option.isNone_iff_eq_none.mp (hpat pattern hp)

/-- Witness of C4 at a recognizer that finds "Sunday". -/
theorem parseReminder_pay_bill_witness :
    (parseReminder (fun _ => [⟨utf16 "Sunday", 1793491200000⟩]) payBillText).category
      = .Bills ∧
    (parseReminder (fun _ => [⟨utf16 "Sunday", 1793491200000⟩]) payBillText).triggerType
      = .time ∧
    (parseReminder (fun _ => [⟨utf16 "Sunday", 1793491200000⟩]) payBillText).dueDate
      = some 1793491200000 ∧
    (parseReminder (fun _ => [⟨utf16 "Sunday", 1793491200000⟩]) payBillText).location
      = none ∧
    (∀ pattern ∈ locationPatterns, pattern.exec payBillText = none) :=
  parseReminder_pay_bill (fun _ => [⟨utf16 "Sunday", 1793491200000⟩])
    ⟨utf16 "Sunday", 1793491200000⟩ [] rfl

/-! ## Location phrases -/

/-- An input that both the conditional and the bare pattern match. -/
theorem exec_in_the_office :
    (conditionalPattern.exec (utf16 "when I'm in the office")).map Match.capture
      = some (some (utf16 "the office")) ∧
    (barePattern.exec (utf16 "when I'm in the office")).map Match.capture
      = some (some (utf16 "office")) := by decide

/-- C5: `extractLocationTriggers` returns `null` exactly when none of the three
patterns matches; otherwise, for the first pattern of the list (conditional,
bare, arrival) that matches, whatever the later ones do, it returns the
trimmed capture of that match as place name with radius 500. -/
theorem extractLocationTriggers_first_match (text : JSString) :
    locationPatterns = [conditionalPattern, barePattern, arrivalPattern] ∧
    (extractLocationTriggers text = none ↔
      ∀ pattern ∈ locationPatterns, pattern.exec text = none) ∧
    (∀ (earlier later : List Re) (pattern : Re) (m : Match),
      locationPatterns = earlier ++ pattern :: later →
      (∀ q ∈ earlier, q.exec text = none) →
      pattern.exec text = some m →
      ∃ cap, m.capture = some cap ∧
        extractLocationTriggers text = some ⟨trim cap, 500⟩) := by
  refine ⟨rfl, extractLocationTriggers_eq_none_iff text, ?_⟩
  · intro earlier later pattern m hsplit hearlier hm
    have hmem : pattern ∈ locationPatterns := by
      rw [hsplit]; exact List.mem_append_right _ (List.mem_cons_self _ _)
    obtain ⟨cap, hcap⟩ :=
      pattern.exec_capture (locationPatterns_captures pattern hmem) text m hm
    refine ⟨cap, hcap, ?_⟩
    unfold extractLocationTriggers
    rw [List.findSome?_eq_some_iff]
    refine ⟨earlier, pattern, later, hsplit, ?_, ?_⟩
    · simp [hm, hcap]
    · intro q hq
      simp [hearlier q hq]

/-- Witness of C5: on "when I'm in the office" the conditional pattern is the
first that matches, the bare pattern matches too with another capture, and
the place name is the capture of the conditional pattern. -/
theorem extractLocationTriggers_first_match_witness :
    extractLocationTriggers (utf16 "when I'm in the office")
      = some ⟨utf16 "the office", 500⟩ ∧
    (barePattern.exec (utf16 "when I'm in the office")).map Match.capture
      = some (some (utf16 "office")) := by
  refine ⟨?_, exec_in_the_office.2⟩
  have hm : ∃ m, conditionalPattern.exec (utf16 "when I'm in the office") = some m ∧
      m.capture = some (utf16 "the office") := by decide
  obtain ⟨m, hm, hc⟩ := hm
  obtain ⟨cap, hcap, hres⟩ :=
    (extractLocationTriggers_first_match (utf16 "when I'm in the office")).2.2
      [] [barePattern, arrivalPattern] conditionalPattern m rfl (by simp) hm
  rw [hres]
  rw [hc] at hcap
  cases hcap
  decide

/-! ## Task extraction -/

/-- C6, as stated, fails: on "Buy milk at the store, when I'm near home" a
location is found, the conditional pattern matches and is stripped, and then
the bare pattern is applied to the rest and strips "at the store," as well, so
the task is "Buy milk" where stripping the first matching pattern only gives
"Buy milk at the store". -/
theorem extractTask_strips_two_phrases :
    (extractLocationTriggers twoPhrasesText).isSome = true ∧
    (conditionalPhrase.exec twoPhrasesText).isSome = true ∧
    trim (conditionalPhrase.remove twoPhrasesText) = utf16 "Buy milk at the store," ∧
    trim (barePhrase.remove (utf16 "Buy milk at the store,")) = utf16 "Buy milk" ∧
    extractTask twoPhrasesText [] (extractLocationTriggers twoPhrasesText)
      = utf16 "Buy milk" ∧
    specExtractTask twoPhrasesText [] (extractLocationTriggers twoPhrasesText)
      = utf16 "Buy milk at the store" ∧
    extractTask twoPhrasesText [] (extractLocationTriggers twoPhrasesText)
      ≠ specExtractTask twoPhrasesText [] (extractLocationTriggers twoPhrasesText) := by
  decide

/-- C6, amended: when a location was found, `extractTask` applies all three
location patterns in list order, each to the trimmed text the previous one
left, whether or not an earlier pattern matched; each removes its leftmost
match, so up to three phrases are stripped. -/
theorem extractTask_applies_all_patterns (input : JSString)
    (dateResults : List ParsedResult) (location : Location) :
    taskLocationPatterns = [conditionalPhrase, barePhrase, arrivalPhrase] ∧
    strippedTask input dateResults (some location)
      = trim (punctuationPattern.remove (trim (remindPattern.remove
          (trim (arrivalPhrase.remove (trim (barePhrase.remove
            (trim (conditionalPhrase.remove
              (withoutDate input dateResults))))))))))
    ∧ extractTask input dateResults (some location)
      = if (strippedTask input dateResults (some location)).isEmpty then input
        else strippedTask input dateResults (some location) := by
  refine ⟨by simp only [taskLocationPatterns], ?_, by simp only [extractTask]⟩
  simp only [strippedTask, taskLocationPatterns, Option.isSome_some, if_true, List.foldl]

/-- C7, as stated, fails: for the empty input the task is the empty string. -/
theorem parseReminder_empty_task :
    (parseReminder noDates []).task = [] := by decide

/-- C7, amended: for every non-empty input (a whitespace-only one too) and
every result of the date recognizer the task is a non-empty string, and
whenever stripping the date text, the location phrases, the leading request
and the trailing punctuation leaves the empty string the task is the
original input. -/
theorem parseReminder_task_nonempty (chronoParse : JSString → List ParsedResult)
    (input : JSString) :
    (input ≠ [] → (parseReminder chronoParse input).task ≠ []) ∧
    (strippedTask input (chronoParse input) (extractLocationTriggers input) = [] →
      (parseReminder chronoParse input).task = input) := by
  simp only [parseReminder, extractTask]
  constructor
  · intro hne
    split
    · exact hne
    · next hs => simpa using hs
  · intro h
    simp [h]

/-- Witness of C7 on a whitespace-only input: stripping leaves nothing and the
task is the input, which is not empty. -/
theorem parseReminder_task_nonempty_witness :
    utf16 "   " ≠ [] ∧
    strippedTask (utf16 "   ") (noDates (utf16 "   "))
      (extractLocationTriggers (utf16 "   ")) = [] ∧
    (parseReminder noDates (utf16 "   ")).task ≠ [] ∧
    (parseReminder noDates (utf16 "   ")).task = utf16 "   " :=
  ⟨by decide, by decide,
   (parseReminder_task_nonempty noDates (utf16 "   ")).1 (by decide),
   (parseReminder_task_nonempty noDates (utf16 "   ")).2 (by decide)⟩

/-! ## Unrecognized input -/

/-- C8, as stated, fails: in "Remind me to dance" no date is found, no
location pattern matches and no category or priority keyword occurs, yet the
task is "dance", not the input. -/
theorem parseReminder_dance :
    noDates danceText = [] ∧
    (∀ pattern ∈ locationPatterns, pattern.exec danceText = none) ∧
    (∀ entry ∈ categories, ∀ keyword ∈ entry.2,
      includes (toLowerCase danceText) keyword = false) ∧
    (∀ keyword ∈ highPriorityKeywords ++ lowPriorityKeywords,
      includes (toLowerCase danceText) keyword = false) ∧
    (parseReminder noDates danceText).task = utf16 "dance" ∧
    (parseReminder noDates danceText).task ≠ danceText := by
  decide

/-- C8, amended: when the date recognizer finds no candidate, none of the
three location patterns matches and no category or priority keyword occurs,
`parseReminder` returns category Personal, priority medium, trigger type
`time`, no due date and no location; the task is the input with a leading
"remind me to" or "remember to", one trailing comma or full stop and the
surrounding white space removed (the input itself if nothing is left), which
is the input when it has none of these. -/
theorem parseReminder_unrecognized (chronoParse : JSString → List ParsedResult)
    (input : JSString) (hdate : chronoParse input = [])
    (hloc : ∀ pattern ∈ locationPatterns, pattern.exec input = none)
    (hcat : ∀ entry ∈ categories, ∀ keyword ∈ entry.2,
      includes (toLowerCase input) keyword = false)
    (hpri : ∀ keyword ∈ highPriorityKeywords ++ lowPriorityKeywords,
      includes (toLowerCase input) keyword = false) :
    (parseReminder chronoParse input).task
      = (if (trim (punctuationPattern.remove (trim (remindPattern.remove input)))).isEmpty
          then input
          else trim (punctuationPattern.remove (trim (remindPattern.remove input)))) ∧
    (trim input = input → remindPattern.exec input = none →
      punctuationPattern.exec input = none →
      (parseReminder chronoParse input).task = input) ∧
    (parseReminder chronoParse input).category = .Personal ∧
    (parseReminder chronoParse input).priority = .medium ∧
    (parseReminder chronoParse input).triggerType = .time ∧
    (parseReminder chronoParse input).dueDate = none ∧
    (parseReminder chronoParse input).location = none := by
  have hl : extractLocationTriggers input = none :=
    (extractLocationTriggers_eq_none_iff input).mpr hloc
  have htask : (parseReminder chronoParse input).task
      = (if (trim (punctuationPattern.remove (trim (remindPattern.remove input)))).isEmpty
          then input
          else trim (punctuationPattern.remove (trim (remindPattern.remove input)))) := by
    simp only [parseReminder, extractTask, strippedTask, withoutDate, hdate, hl,
      Option.isSome_none, Bool.false_eq_true, if_false]
  refine ⟨htask, ?_, ?_, ?_, ?_, ?_, ?_⟩
  · intro ht hr hp
    rw [htask]
    simp only [Re.remove, hr, hp, ht]
    split
    · rfl
    · rfl
  · simp only [parseReminder, categorizeReminder]
    have : (categories.findSome? fun entry =>
        entry.2.findSome? fun keyword =>
          if includes (toLowerCase input) keyword then some entry.1 else none) = none := by
      rw [List.findSome?_eq_none_iff]
      intro entry he
      rw [List.findSome?_eq_none_iff]
      intro keyword hk
      simp [hcat entry he keyword hk]
    rw [this]
    rfl
  · simp only [parseReminder, determinePriority]
    have h1 : highPriorityKeywords.any (fun keyword => includes (toLowerCase input) keyword)
        = false := by
      rw [List.any_eq_false]
      intro keyword hk
      simp [hpri keyword (List.mem_append_left _ hk)]
    have h2 : lowPriorityKeywords.any (fun keyword => includes (toLowerCase input) keyword)
        = false := by
      rw [List.any_eq_false]
      intro keyword hk
      simp [hpri keyword (List.mem_append_right _ hk)]
    simp [h1, h2]
  · simp only [parseReminder, hl]
  · simp only [parseReminder, hdate]
  · simp only [parseReminder, hl]

/-- Witness of C8 on "hello world", whose task is the input. -/
theorem parseReminder_unrecognized_witness :
    (parseReminder noDates helloText).task = helloText ∧
    (parseReminder noDates helloText).category = .Personal ∧
    (parseReminder noDates helloText).priority = .medium ∧
    (parseReminder noDates helloText).triggerType = .time ∧
    (parseReminder noDates helloText).dueDate = none ∧
    (parseReminder noDates helloText).location = none :=
  have h := parseReminder_unrecognized noDates helloText rfl (by decide) (by decide)
    (by decide)
  ⟨h.2.1 (by decide) (by decide) (by decide), h.2.2⟩

/-! ## Category and priority -/

/-- C9: `categorizeReminder` returns the first category, in the order
Groceries, Bills, Work, Health, Shopping, one of whose keywords occurs in the
lower-cased text, and Personal when no category has one; a text in which
"grocery" occurs is Groceries, also when "bill" occurs in it. -/
theorem categorizeReminder_first_category (text : JSString) :
    categories.map Prod.fst = [.Groceries, .Bills, .Work, .Health, .Shopping] ∧
    (∀ (earlier later : List (Category × List JSString))
        (entry : Category × List JSString),
      categories = earlier ++ entry :: later →
      (∀ e ∈ earlier, ∀ keyword ∈ e.2, includes (toLowerCase text) keyword = false) →
      (∃ keyword ∈ entry.2, includes (toLowerCase text) keyword = true) →
      categorizeReminder text = entry.1) ∧
    ((∀ entry ∈ categories, ∀ keyword ∈ entry.2,
        includes (toLowerCase text) keyword = false) →
      categorizeReminder text = .Personal) ∧
    (includes text (utf16 "grocery") = true → includes text (utf16 "bill") = true →
      categorizeReminder text = .Groceries) ∧
    (includes (toLowerCase text) (utf16 "grocery") = true →
      includes (toLowerCase text) (utf16 "bill") = true →
      categorizeReminder text = .Groceries) := by
  have key : ∀ (earlier later : List (Category × List JSString))
      (entry : Category × List JSString),
      categories = earlier ++ entry :: later →
      (∀ e ∈ earlier, ∀ keyword ∈ e.2, includes (toLowerCase text) keyword = false) →
      (∃ keyword ∈ entry.2, includes (toLowerCase text) keyword = true) →
      categorizeReminder text = entry.1 := by
    intro earlier later entry hsplit hearlier ⟨keyword, hk, hin⟩
    have hfind : (categories.findSome? fun entry =>
        entry.2.findSome? fun keyword =>
          if includes (toLowerCase text) keyword then some entry.1 else none)
        = some entry.1 := by
      rw [List.findSome?_eq_some_iff]
      refine ⟨earlier, entry, later, hsplit, ?_, ?_⟩
      · have hs : ((entry.2.findSome? fun keyword =>
            if includes (toLowerCase text) keyword then some entry.1 else none)).isSome
            = true := by
          rw [List.findSome?_isSome_iff]
          exact ⟨keyword, hk, by simp [hin]⟩
        obtain ⟨c, hc⟩ := Option.isSome_iff_exists.mp hs
        obtain ⟨kw, _, hkw⟩ := List.exists_of_findSome?_eq_some hc
        split at hkw
        · cases hkw; exact hc
        · exact absurd hkw (by simp)
      · intro e he
        rw [List.findSome?_eq_none_iff]
        intro kw hkw
        simp [hearlier e he kw hkw]
    simp only [categorizeReminder, hfind, Option.getD_some]
  have hlow : includes (toLowerCase text) (utf16 "grocery") = true →
      categorizeReminder text = .Groceries := by
    intro h
    exact key [] (categories.drop 1) (categories.get ⟨0, by decide⟩) rfl (by simp)
      ⟨utf16 "grocery", by decide, h⟩
  refine ⟨by decide, key, ?_, ?_, fun h _ => hlow h⟩
  · intro hnone
    have : (categories.findSome? fun entry =>
        entry.2.findSome? fun keyword =>
          if includes (toLowerCase text) keyword then some entry.1 else none) = none := by
      rw [List.findSome?_eq_none_iff]
      intro entry he
      rw [List.findSome?_eq_none_iff]
      intro keyword hk
      simp [hnone entry he keyword hk]
    simp only [categorizeReminder, this, Option.getD_none]
  · intro h _
    exact hlow (includes_toLowerCase (by decide) h)

/-- Witness of C9 on "Pay the Grocery bill": both "grocery" and "bill" occur
in the lower-cased text and the category is Groceries. -/
theorem categorizeReminder_first_category_witness :
    includes (toLowerCase groceryBillText) (utf16 "grocery") = true ∧
    includes (toLowerCase groceryBillText) (utf16 "bill") = true ∧
    categorizeReminder groceryBillText = .Groceries :=
  ⟨by decide, by decide,
   (categorizeReminder_first_category groceryBillText).2.2.2.2 (by decide) (by decide)⟩

/-- C10: `determinePriority` returns `high` exactly when one of urgent,
important, asap, immediately, critical occurs in the lower-cased text, whatever
else occurs in it; `low` exactly when none of these does and one of maybe,
sometime, eventually, when possible occurs; `medium` exactly when none of the
nine occurs. -/
theorem determinePriority_keywords (text : JSString) :
    highPriorityKeywords
      = ["urgent", "important", "asap", "immediately", "critical"].map utf16 ∧
    lowPriorityKeywords = ["maybe", "sometime", "eventually", "when possible"].map utf16 ∧
    (determinePriority text = .high ↔
      ∃ keyword ∈ highPriorityKeywords, includes (toLowerCase text) keyword = true) ∧
    (determinePriority text = .low ↔
      (¬ ∃ keyword ∈ highPriorityKeywords, includes (toLowerCase text) keyword = true) ∧
      ∃ keyword ∈ lowPriorityKeywords, includes (toLowerCase text) keyword = true) ∧
    (determinePriority text = .medium ↔
      (¬ ∃ keyword ∈ highPriorityKeywords, includes (toLowerCase text) keyword = true) ∧
      ¬ ∃ keyword ∈ lowPriorityKeywords, includes (toLowerCase text) keyword = true) := by
  refine ⟨rfl, rfl, ?_, ?_, ?_⟩ <;>
  · simp only [determinePriority, ← List.any_eq_true]
    cases highPriorityKeywords.any (fun keyword => includes (toLowerCase text) keyword) <;>
    cases lowPriorityKeywords.any (fun keyword => includes (toLowerCase text) keyword) <;>
    simp

/-! ## Distances -/

/-- The distance between a point and itself, for use at concrete points. -/
theorem calculateDistance_same_point (lat lng : ℝ) : calculateDistance lat lng lat lng = 0 := by
  have h1 : (⟨1, 0⟩ : ℂ) = 1 := rfl
  simp [calculateDistance, atan2, h1]

/-- C11: the distance from `p` to `q` equals the distance from `q` to `p`, for
every pair of points. -/
theorem calculateDistance_symm (lat1 lng1 lat2 lng2 : ℝ) :
    calculateDistance lat1 lng1 lat2 lng2 = calculateDistance lat2 lng2 lat1 lng1 := by
  have h1 : (lat1 - lat2) * Real.pi / 180 / 2 = -((lat2 - lat1) * Real.pi / 180 / 2) := by ring
  have h2 : (lng1 - lng2) * Real.pi / 180 / 2 = -((lng2 - lng1) * Real.pi / 180 / 2) := by ring
  simp only [calculateDistance, h1, h2, Real.sin_neg, neg_mul_neg]
  have h3 : Real.cos (lat1 * Real.pi / 180) * Real.cos (lat2 * Real.pi / 180)
      = Real.cos (lat2 * Real.pi / 180) * Real.cos (lat1 * Real.pi / 180) := mul_comm _ _
  rw [mul_assoc (Real.cos (lat2 * Real.pi / 180) * Real.cos (lat1 * Real.pi / 180)),
    mul_assoc (Real.cos (lat1 * Real.pi / 180) * Real.cos (lat2 * Real.pi / 180)), h3]
  simp [mul_assoc]

/-- C12: the distance from a point to itself is exactly 0. -/
theorem calculateDistance_self (lat lng : ℝ) : calculateDistance lat lng lat lng = 0 := by
  have h1 : (⟨1, 0⟩ : ℂ) = 1 := rfl
  simp only [calculateDistance, sub_self, zero_mul, zero_div, Real.sin_zero, mul_zero, add_zero,
    Real.sqrt_zero, sub_zero, Real.sqrt_one, atan2, h1, Complex.arg_one]

/-- C13: for two points on one meridian with latitudes in `[-90, 90]` the
distance is the arc length `6371000 · |lat2 − lat1| · π / 180` of the great
circle, with Earth radius 6371000 m. -/
theorem calculateDistance_meridian (lat1 lat2 lng : ℝ)
    (h1 : -90 ≤ lat1 ∧ lat1 ≤ 90) (h2 : -90 ≤ lat2 ∧ lat2 ≤ 90) :
    calculateDistance lat1 lng lat2 lng = 6371000 * |lat2 - lat1| * Real.pi / 180 := by
  have hpi := Real.pi_pos
  set h := (lat2 - lat1) * Real.pi / 180 / 2 with hh
  have hub : |h| ≤ Real.pi / 2 := by
    rw [abs_le]
    constructor
    · rw [hh]; nlinarith [h1.1, h1.2, h2.1, h2.2]
    · rw [hh]; nlinarith [h1.1, h1.2, h2.1, h2.2]
  have hcos : 0 ≤ Real.cos h :=
    Real.cos_nonneg_of_neg_pi_div_two_le_of_le (abs_le.mp hub).1 (abs_le.mp hub).2
  have hsin : |Real.sin h| = Real.sin |h| := by
    rcases abs_cases h with ⟨e, hn⟩ | ⟨e, hn⟩
    · rw [e, abs_of_nonneg]
      exact Real.sin_nonneg_of_nonneg_of_le_pi hn (by linarith [(abs_le.mp hub).2])
    · rw [e, Real.sin_neg, abs_of_nonpos]
      have := @Real.sin_nonneg_of_nonneg_of_le_pi (-h) (by linarith)
        (by linarith [(abs_le.mp hub).1])
      rw [Real.sin_neg] at this
      linarith
  have ha : Real.sin h * Real.sin h + Real.cos (lat1 * Real.pi / 180) *
      Real.cos (lat2 * Real.pi / 180) * Real.sin ((lng - lng) * Real.pi / 180 / 2) *
      Real.sin ((lng - lng) * Real.pi / 180 / 2) = Real.sin h ^ 2 := by
    simp [sq]
  have hs1 : Real.sqrt (Real.sin h ^ 2) = Real.sin |h| := by
    rw [Real.sqrt_sq_eq_abs, hsin]
  have hs2 : Real.sqrt (1 - Real.sin h ^ 2) = Real.cos |h| := by
    rw [← Real.cos_sq', Real.sqrt_sq_eq_abs, abs_of_nonneg hcos, Real.cos_abs]
  have harg : atan2 (Real.sin |h|) (Real.cos |h|) = |h| := by
    have hz : (⟨Real.cos |h|, Real.sin |h|⟩ : ℂ)
        = Complex.cos (|h| : ℝ) + Complex.sin (|h| : ℝ) * Complex.I := by
      apply Complex.ext
      · simp [← Complex.ofReal_cos, ← Complex.ofReal_sin]
      · simp [← Complex.ofReal_cos, ← Complex.ofReal_sin]
    rw [atan2, hz]
    exact Complex.arg_cos_add_sin_mul_I ⟨by linarith [abs_nonneg h], by linarith⟩
  simp only [calculateDistance]
  rw [← hh, ha, hs1, hs2, harg]
  have : |h| = |lat2 - lat1| * Real.pi / 180 / 2 := by
    rw [hh, abs_div, abs_div, abs_mul, abs_of_pos hpi]
    norm_num
  rw [this]
  ring

/-- Witness of C13: from the equator to the pole along the prime meridian. -/
theorem calculateDistance_meridian_witness :
    calculateDistance 0 0 90 0 = 6371000 * |(90 : ℝ) - 0| * Real.pi / 180 :=
  calculateDistance_meridian 0 90 0 (by norm_num) (by norm_num)

/-- C14: `isWithinRadius` is true exactly when the distance is at most the
radius; it is true when the distance equals the radius. -/
theorem isWithinRadius_iff (userLat userLng targetLat targetLng radius : ℝ) :
    (isWithinRadius userLat userLng targetLat targetLng radius = true ↔
      calculateDistance userLat userLng targetLat targetLng ≤ radius) ∧
    (calculateDistance userLat userLng targetLat targetLng = radius →
      isWithinRadius userLat userLng targetLat targetLng radius = true) := by
  constructor
  · simp only [isWithinRadius, decide_eq_true_eq]
  · intro h
    simp only [isWithinRadius, decide_eq_true_eq]
    exact le_of_eq h


/-- Witness of C14: a point is within radius 0 of itself, the distance being
equal to the radius. -/
theorem isWithinRadius_iff_witness : isWithinRadius 1 2 1 2 0 = true :=
  (isWithinRadius_iff 1 2 1 2 0).2 (calculateDistance_same_point 1 2)

/-! ## The location check -/

/-- When every save succeeds the loop ends with the nearby reminders, marked,
in the order of the list, after those collected before. -/
theorem triggerLoop_all_saved (saveOk : Reminder → Bool) (now : Date)
    (latitude longitude : JSValue) (hsave : ∀ r, saveOk r = true) :
    ∀ (reminders triggeredReminders : List Reminder),
      triggerLoop saveOk now latitude longitude reminders triggeredReminders
        = .ok (triggeredReminders ++
            (reminders.filter (isNearby latitude longitude)).map (markTriggered now)) := by
  intro reminders
  induction reminders with
  | nil => intro acc; simp [triggerLoop]
  | cons r rest ih =>
    intro acc
    unfold triggerLoop
    by_cases h : isNearby latitude longitude r = true
    · simp [h, hsave, ih]
    · simp [h, ih]

/-- A reminder is nearby at the position of its own coordinates when its
radius, after defaulting, is not negative. -/
theorem isNearby_at_target (reminder : Reminder) (location : ReminderLocation)
    (lng lat : ℝ) (hl : reminder.location = some location)
    (hc : location.coordinates = some (lng, lat))
    (hr : 0 ≤ radiusOrDefault location.radius) :
    isNearby (.number lat) (.number lng) reminder = true := by
  simp only [isNearby, hl, hc, JSValue.toNumber, isWithinRadius,
    calculateDistance_same_point, decide_eq_true_eq]
  exact hr

/-- C15: for an accepted position and every list of candidates, when every
save succeeds the handler returns, in the order of the candidates, exactly
those that have a location with coordinates `[targetLng, targetLat]` and for
which `isWithinRadius(latitude, longitude, targetLat, targetLng, radius ||
500)` holds, each with `isTriggered` set. -/
theorem checkLocationReminders_returns_nearby (candidates : List Reminder)
    (saveOk : Reminder → Bool) (now : Date) (latitude longitude : JSValue)
    (hlat : latitude.truthy = true) (hlng : longitude.truthy = true)
    (hsave : ∀ r, saveOk r = true) :
    (checkLocationReminders (some candidates) saveOk now latitude longitude).response
      = .ok ((candidates.filter (isNearby latitude longitude)).map (markTriggered now)).length
          ((candidates.filter (isNearby latitude longitude)).map (markTriggered now)) ∧
    (candidates.filter (isNearby latitude longitude)).Sublist candidates ∧
    (∀ r ∈ (candidates.filter (isNearby latitude longitude)).map (markTriggered now),
      r.isTriggered = true) ∧
    (∀ r, isNearby latitude longitude r = true ↔
      ∃ location targetLng targetLat lat lng,
        r.location = some location ∧
        location.coordinates = some (targetLng, targetLat) ∧
        latitude.toNumber = some lat ∧ longitude.toNumber = some lng ∧
        isWithinRadius lat lng targetLat targetLng (radiusOrDefault location.radius)
          = true) := by
  refine ⟨?_, List.filter_sublist _, ?_, ?_⟩
  · simp only [checkLocationReminders, hlat, hlng, Bool.not_true, Bool.or_self,
      Bool.false_eq_true, if_false, triggerLoop_all_saved saveOk now latitude longitude hsave,
      List.nil_append]
  · intro r hr
    obtain ⟨c, _, rfl⟩ := List.mem_map.mp hr
    rfl
  · intro r
    constructor
    · intro h
      unfold isNearby at h
      split at h
      · next location hl =>
        split at h
        · next targetLng targetLat hc =>
          split at h
          · next lat lng h1 h2 =>
            exact ⟨location, targetLng, targetLat, lat, lng, hl, hc, h1, h2, h⟩
          · exact absurd h (by simp)
        · exact absurd h (by simp)
      · exact absurd h (by simp)
    · rintro ⟨location, targetLng, targetLat, lat, lng, hl, hc, h1, h2, h⟩
      simp only [isNearby, hl, hc, h1, h2, h]

/-- Witness of C15: at latitude 1, longitude 2, of the two candidates the one
located there is returned, marked as triggered. -/
theorem checkLocationReminders_returns_nearby_witness :
    (checkLocationReminders (some [homeReminder, bareReminder]) (fun _ => true) 0
        (.number 1) (.number 2)).response
      = .ok 1 [markTriggered 0 homeReminder] := by
  have h := (checkLocationReminders_returns_nearby [homeReminder, bareReminder]
    (fun _ => true) 0 (.number 1) (.number 2) (by simp [JSValue.truthy])
    (by simp [JSValue.truthy]) (fun _ => rfl)).1
  have h1 : isNearby (.number 1) (.number 2) homeReminder = true :=
    isNearby_at_target homeReminder homeLocation 2 1 rfl rfl
      (by simp [radiusOrDefault, homeLocation])
  have h2 : isNearby (.number 1) (.number 2) bareReminder = false := by
    simp [isNearby, bareReminder]
  rw [h]
  simp [List.filter, h1, h2]

/-! ## Overlapping invocations -/

theorem markTriggered_id (now : Date) (r : Reminder) : (markTriggered now r).id = r.id := rfl

/-- A turn given to an invocation that has responded changes nothing. -/
theorem step_responded (user : Nat) (now : Date) (latitude longitude : JSValue)
    (store : Store) (data : List Reminder) :
    Invocation.step user now latitude longitude store (.responded data)
      = (store, .responded data) := rfl

/-- The first step of an invocation whose position passes the check calls
the query. -/
theorem step_start (user : Nat) (now : Date) (latitude longitude : JSValue)
    (store : Store) (hlat : latitude.truthy = true) (hlng : longitude.truthy = true) :
    Invocation.step user now latitude longitude store .start = (store, .atFind) := by
  simp [Invocation.step, hlat, hlng]

/-- The first step of an invocation whose latitude or longitude is falsy ends
it with status 400, as the handler does, and the collection is not
touched. -/
theorem step_start_rejected (user : Nat) (now : Date) (latitude longitude : JSValue)
    (store : Store) (find : Option (List Reminder)) (saveOk : Reminder → Bool)
    (h : latitude.truthy = false ∨ longitude.truthy = false) :
    Invocation.step user now latitude longitude store .start = (store, .rejected) ∧
    (checkLocationReminders find saveOk now latitude longitude).response = .badRequest := by
  rcases h with h | h <;> simp [Invocation.step, checkLocationReminders, h]

/-- From any point of the loop an invocation running alone reaches its
response, which holds the nearby reminders still to visit after those
collected before. -/
theorem resume_steps (user : Nat) (now : Date) (latitude longitude : JSValue) :
    ∀ (rest triggeredReminders : List Reminder) (store : Store),
      ∃ n store1,
        Invocation.steps user now latitude longitude n
            (store, resume now latitude longitude rest triggeredReminders)
          = (store1, .responded (triggeredReminders ++
              (rest.filter (isNearby latitude longitude)).map (markTriggered now))) := by
  intro rest
  induction rest with
  | nil =>
    intro acc store
    exact ⟨0, store, by simp [Invocation.steps, resume]⟩
  | cons r rest ih =>
    intro acc store
    by_cases h : isNearby latitude longitude r = true
    · obtain ⟨n, store1, hn⟩ := ih (acc ++ [markTriggered now r])
        (store.save (markTriggered now r))
      refine ⟨n + 1, store1, ?_⟩
      simp only [resume, h, if_true, Invocation.steps, Invocation.step, hn, List.filter_cons,
        List.map_cons, List.append_assoc, List.singleton_append]
    · obtain ⟨n, store1, hn⟩ := ih acc store
      refine ⟨n, store1, ?_⟩
      simp only [resume, h, Bool.false_eq_true, if_false, hn, List.filter_cons]

/-- An invocation that runs alone on a collection, with a position that
passes the check, responds with the `data` of the handler
`checkLocationReminders` on the result of the query. -/
theorem steps_alone_eq_handler (user : Nat) (now : Date) (latitude longitude : JSValue)
    (store : Store) (hlat : latitude.truthy = true) (hlng : longitude.truthy = true) :
    ∃ n store1 data,
      Invocation.steps user now latitude longitude n (store, .start)
        = (store1, .responded data) ∧
      (checkLocationReminders (some (store.find user)) (fun _ => true) now
          latitude longitude).response = .ok data.length data := by
  obtain ⟨n, store1, hn⟩ := resume_steps user now latitude longitude (store.find user) [] store
  refine ⟨n + 2, store1,
    (store.find user |>.filter (isNearby latitude longitude)).map (markTriggered now), ?_, ?_⟩
  · simp only [Invocation.steps]
    rw [step_start user now latitude longitude store hlat hlng]
    simp only [Invocation.step]
    simpa using hn
  · simp only [checkLocationReminders, hlat, hlng, Bool.not_true, Bool.or_self,
      Bool.false_eq_true, if_false,
      triggerLoop_all_saved (fun _ => true) now latitude longitude (fun _ => rfl),
      List.nil_append]

/-- Every turn of a schedule is a turn of the first or of the second
invocation. -/
theorem count_turns (schedule : List Turn) :
    schedule.count .first + schedule.count .second = schedule.length := by
  induction schedule with
  | nil => rfl
  | cons turn schedule ih =>
    cases turn <;> simp [List.count_cons] <;> omega

/-- The steps of two invocations on a collection that holds one untouched
candidate within its radius. -/
theorem single_candidate_steps (user : Nat) (now : Date) (latitude longitude : JSValue)
    (r : Reminder) (huser : r.user = user) (hstatus : r.status = .active)
    (htype : r.triggerType = .location ∨ r.triggerType = .both)
    (hfresh : r.isTriggered = false) (hnear : isNearby latitude longitude r = true) :
    Invocation.step user now latitude longitude [r] .atFind
      = ([r], .atSave (markTriggered now r) [] []) ∧
    Invocation.step user now latitude longitude [markTriggered now r] .atFind
      = ([markTriggered now r], .responded []) ∧
    Invocation.step user now latitude longitude [r] (.atSave (markTriggered now r) [] [])
      = ([markTriggered now r], .responded [markTriggered now r]) ∧
    Invocation.step user now latitude longitude [markTriggered now r]
        (.atSave (markTriggered now r) [] [])
      = ([markTriggered now r], .responded [markTriggered now r]) := by
  have hfind : Store.find [r] user = [r] := by
    rcases htype with h | h <;> simp [Store.find, huser, hstatus, h, hfresh]
  have hfind2 : Store.find [markTriggered now r] user = [] := by
    simp [Store.find, markTriggered]
  have hsave : Store.save [r] (markTriggered now r) = [markTriggered now r] := by
    simp [Store.save, markTriggered]
  have hsave2 : Store.save [markTriggered now r] (markTriggered now r)
      = [markTriggered now r] := by
    simp [Store.save, markTriggered]
  refine ⟨?_, ?_, ?_, ?_⟩
  · simp [Invocation.step, hfind, resume, hnear]
  · simp [Invocation.step, hfind2, resume]
  · simp [Invocation.step, hsave, resume]
  · simp [Invocation.step, hsave2, resume]

/-- C16, as stated, fails: when the two invocations, at latitude 1 and
longitude 2, both run their query before either saves, the response of each
holds the one candidate. -/
theorem overlapping_invocations_both_return :
    homeReminder.isTriggered = false ∧
    isNearby (.number 1) (.number 2) homeReminder = true ∧
    ((Concurrent.run 7 0 (.number 1) (.number 2)
        [.first, .second, .first, .second, .first, .second]
        ⟨[homeReminder], .start, .start⟩).first.returned homeReminder.id = true) ∧
    ((Concurrent.run 7 0 (.number 1) (.number 2)
        [.first, .second, .first, .second, .first, .second]
        ⟨[homeReminder], .start, .start⟩).second.returned homeReminder.id = true) := by
  have hnear : isNearby (.number 1) (.number 2) homeReminder = true :=
    isNearby_at_target homeReminder homeLocation 2 1 rfl rfl
      (by simp [radiusOrDefault, homeLocation])
  have h0 := fun store => step_start 7 0 (.number 1) (.number 2) store
    (by simp [JSValue.truthy]) (by simp [JSValue.truthy])
  obtain ⟨h1, h2, h3, h4⟩ := single_candidate_steps 7 0 (.number 1) (.number 2)
    homeReminder rfl rfl (Or.inl rfl) rfl hnear
  refine ⟨rfl, hnear, ?_, ?_⟩
  · simp only [Concurrent.run, h0, h1, h2, h3, h4]
    simp [Invocation.returned, markTriggered_id]
  · simp only [Concurrent.run, h0, h1, h2, h3, h4]
    simp [Invocation.returned, markTriggered_id]

/-- C16, amended: two invocations with a position that passes the check,
against one untouched candidate within its radius, each given three turns
(the check of the position, the query, the save), under every interleaving
of the turns. Both respond with status 200 and the candidate ends triggered.
The response of an invocation holds the candidate exactly when its query
comes before the third turn of the other invocation, the turn in which that
one saves the candidate if its own query returned it. So at least one
response holds the candidate, and both do when both queries come before both
saves: the candidate is read by the query and written by a later save that
carries no condition. -/
theorem two_invocations_single_candidate (user : Nat) (now : Date)
    (latitude longitude : JSValue) (r : Reminder)
    (hlat : latitude.truthy = true) (hlng : longitude.truthy = true)
    (huser : r.user = user) (hstatus : r.status = .active)
    (htype : r.triggerType = .location ∨ r.triggerType = .both)
    (hfresh : r.isTriggered = false) (hnear : isNearby latitude longitude r = true)
    (schedule : List Turn)
    (hfirst : schedule.count .first = 3) (hsecond : schedule.count .second = 3)
    (final : Concurrent)
    (hfinal : final = Concurrent.run user now latitude longitude schedule
      ⟨[r], .start, .start⟩) :
    final.first.respondedOk = true ∧ final.second.respondedOk = true ∧
    final.store = [markTriggered now r] ∧
    (final.first.returned r.id = true ↔
      Turn.place .first 1 schedule < Turn.place .second 2 schedule) ∧
    (final.second.returned r.id = true ↔
      Turn.place .second 1 schedule < Turn.place .first 2 schedule) ∧
    (final.first.returned r.id = true ∨ final.second.returned r.id = true) := by
  have h0 := fun store => step_start user now latitude longitude store hlat hlng
  obtain ⟨h1, h2, h3, h4⟩ :=
    single_candidate_steps user now latitude longitude r huser hstatus htype hfresh hnear
  have hlen : schedule.length = 6 := by
    rw [← count_turns schedule, hfirst, hsecond]
  rcases schedule with _ | ⟨a, _ | ⟨b, _ | ⟨c, _ | ⟨d, _ | ⟨e, _ | ⟨f, _ | ⟨g, rest⟩⟩⟩⟩⟩⟩⟩
  · simp at hfirst
  · cases a <;> simp at hfirst hsecond
  · cases a <;> cases b <;> simp at hfirst hsecond
  · cases a <;> cases b <;> cases c <;> simp at hfirst hsecond
  · cases a <;> cases b <;> cases c <;> cases d <;> simp at hfirst hsecond
  · cases a <;> cases b <;> cases c <;> cases d <;> cases e <;> simp at hfirst hsecond
  · cases a <;> cases b <;> cases c <;> cases d <;> cases e <;> cases f <;>
      simp at hfirst hsecond <;>
      · subst hfinal
        simp only [Concurrent.run, h0, h1, h2, h3, h4, step_responded]
        simp [Invocation.returned, Invocation.respondedOk, markTriggered_id, Turn.place]
  · simp at hlen

/-- Witness of C16, amended: both invocations have started when the first
runs its query and its save; the query of the second comes after that save,
and the first response alone holds the candidate. -/
theorem two_invocations_single_candidate_witness :
    (Concurrent.run 7 0 (.number 1) (.number 2)
        [.first, .second, .first, .first, .second, .second]
        ⟨[homeReminder], .start, .start⟩).first.returned homeReminder.id = true ∧
    ¬ (Concurrent.run 7 0 (.number 1) (.number 2)
        [.first, .second, .first, .first, .second, .second]
        ⟨[homeReminder], .start, .start⟩).second.returned homeReminder.id = true :=
  have h := two_invocations_single_candidate 7 0 (.number 1) (.number 2) homeReminder
    (by simp [JSValue.truthy]) (by simp [JSValue.truthy]) rfl rfl (Or.inl rfl) rfl
    (isNearby_at_target homeReminder homeLocation 2 1 rfl rfl
      (by simp [radiusOrDefault, homeLocation]))
    [.first, .second, .first, .first, .second, .second] (by decide) (by decide) _ rfl
  ⟨h.2.2.2.1.mpr (by decide), fun hs => absurd (h.2.2.2.2.1.mp hs) (by decide)⟩

/-! ## Validation of the position -/

/-- C17, as stated, fails: a latitude and a longitude that are strings and
not numbers are not rejected; the query runs and the response is a success. -/
theorem checkLocationReminders_accepts_text :
    (JSValue.string (utf16 "north") none).isNumber = false ∧
    (JSValue.string (utf16 "east") none).isNumber = false ∧
    (checkLocationReminders (some [homeReminder]) (fun _ => true) 0
        (.string (utf16 "north") none) (.string (utf16 "east") none)).queried = true ∧
    (checkLocationReminders (some [homeReminder]) (fun _ => true) 0
        (.string (utf16 "north") none) (.string (utf16 "east") none)).response
      = .ok 0 [] := by
  have h1 : (utf16 "north").isEmpty = false := by decide
  have h2 : (utf16 "east").isEmpty = false := by decide
  simp [JSValue.isNumber, checkLocationReminders, JSValue.truthy, h1, h2, triggerLoop,
    isNearby, homeReminder, homeLocation, JSValue.toNumber]

/-- C17, amended: a request whose latitude or longitude is missing
(`undefined` or `null`) is rejected with status 400 before any reminder is
read or modified; a request whose latitude and longitude are both numbers
other than 0 is evaluated, and so is every request whose latitude and
longitude are truthy, numbers or not; a response with status 400 is only
given before the query. -/
theorem checkLocationReminders_validation (find : Option (List Reminder))
    (saveOk : Reminder → Bool) (now : Date) (latitude longitude : JSValue) :
    ((latitude = .undefined ∨ latitude = .null ∨
        longitude = .undefined ∨ longitude = .null) →
      (checkLocationReminders find saveOk now latitude longitude).queried = false ∧
      (checkLocationReminders find saveOk now latitude longitude).saved = [] ∧
      (checkLocationReminders find saveOk now latitude longitude).response
        = .badRequest) ∧
    (∀ x y : ℝ, latitude = .number x → longitude = .number y → x ≠ 0 → y ≠ 0 →
      (checkLocationReminders find saveOk now latitude longitude).queried = true ∧
      (checkLocationReminders find saveOk now latitude longitude).response
        ≠ .badRequest) ∧
    (latitude.truthy = true → longitude.truthy = true →
      (checkLocationReminders find saveOk now latitude longitude).queried = true ∧
      (checkLocationReminders find saveOk now latitude longitude).response
        ≠ .badRequest) ∧
    ((checkLocationReminders find saveOk now latitude longitude).response = .badRequest →
      (checkLocationReminders find saveOk now latitude longitude).queried = false ∧
      (checkLocationReminders find saveOk now latitude longitude).saved = []) := by
  have accepted : latitude.truthy = true → longitude.truthy = true →
      (checkLocationReminders find saveOk now latitude longitude).queried = true ∧
      (checkLocationReminders find saveOk now latitude longitude).response
        ≠ .badRequest := by
    intro hlat hlng
    simp only [checkLocationReminders, hlat, hlng, Bool.not_true, Bool.or_self,
      Bool.false_eq_true, if_false]
    cases find with
    | none => simp
    | some reminders =>
      cases h : triggerLoop saveOk now latitude longitude reminders [] <;> simp [h]
  refine ⟨?_, ?_, accepted, ?_⟩
  · intro h
    rcases h with h | h | h | h <;> subst h <;>
      simp [checkLocationReminders, JSValue.truthy]
  · intro x y hx hy hx0 hy0
    apply accepted
    · simp [hx, JSValue.truthy, hx0]
    · simp [hy, JSValue.truthy, hy0]
  · intro h
    by_cases hg : (!latitude.truthy || !longitude.truthy) = true
    · simp [checkLocationReminders, hg]
    · exfalso
      have hlat : latitude.truthy = true := by
        cases h1 : latitude.truthy <;> simp [h1] at hg ⊢
      have hlng : longitude.truthy = true := by
        cases h1 : longitude.truthy <;> simp [h1] at hg ⊢
      exact (accepted hlat hlng).2 h

/-- Witness of C17, amended: latitude 1 and longitude 2 are evaluated, and a
request without latitude is rejected before the query. -/
theorem checkLocationReminders_validation_witness :
    ((checkLocationReminders (some [homeReminder]) (fun _ => true) 0
        (.number 1) (.number 2)).queried = true ∧
      (checkLocationReminders (some [homeReminder]) (fun _ => true) 0
        (.number 1) (.number 2)).response ≠ .badRequest) ∧
    ((checkLocationReminders (some [homeReminder]) (fun _ => true) 0
        .undefined (.number 2)).queried = false ∧
      (checkLocationReminders (some [homeReminder]) (fun _ => true) 0
        .undefined (.number 2)).saved = [] ∧
      (checkLocationReminders (some [homeReminder]) (fun _ => true) 0
        .undefined (.number 2)).response = .badRequest) :=
  ⟨(checkLocationReminders_validation (some [homeReminder]) (fun _ => true) 0
      (.number 1) (.number 2)).2.1 1 2 rfl rfl (by norm_num) (by norm_num),
   (checkLocationReminders_validation (some [homeReminder]) (fun _ => true) 0
      .undefined (.number 2)).1 (Or.inl rfl)⟩

/-! ## A save that fails -/

/-- The loop on a list in which the save of a nearby reminder fails, the
saves before it succeeding: it ends in the error, with the nearby reminders
before it saved. -/
theorem triggerLoop_save_fails (saveOk : Reminder → Bool) (now : Date)
    (latitude longitude : JSValue) (r : Reminder) (later : List Reminder)
    (hr : isNearby latitude longitude r = true)
    (hfail : saveOk (markTriggered now r) = false) :
    ∀ (earlier triggeredReminders : List Reminder),
      (∀ c ∈ earlier, isNearby latitude longitude c = true →
        saveOk (markTriggered now c) = true) →
      triggerLoop saveOk now latitude longitude (earlier ++ r :: later) triggeredReminders
        = .error (triggeredReminders ++
            (earlier.filter (isNearby latitude longitude)).map (markTriggered now)) := by
  intro earlier
  induction earlier with
  | nil =>
    intro acc _
    simp [triggerLoop, hr, hfail]
  | cons c rest ih =>
    intro acc hsaved
    have hrest : ∀ d ∈ rest, isNearby latitude longitude d = true →
        saveOk (markTriggered now d) = true :=
      fun d hd => hsaved d (List.mem_cons_of_mem _ hd)
    by_cases hc : isNearby latitude longitude c = true
    · have hs := hsaved c (List.mem_cons_self _ _) hc
      simp [triggerLoop, hc, hs, ih _ hrest]
    · simp [triggerLoop, hc, ih _ hrest]

/-- C18, as stated, fails: at latitude 1 and longitude 2 both candidates are
nearby; the save of the first succeeds and the save of the second fails; the
response is the server error, without the first candidate, which has been
saved as triggered. -/
theorem checkLocationReminders_partial_failure :
    (checkLocationReminders (some [homeReminder, officeReminder]) (fun r => r.id == 1) 0
        (.number 1) (.number 2)).saved = [markTriggered 0 homeReminder] ∧
    (checkLocationReminders (some [homeReminder, officeReminder]) (fun r => r.id == 1) 0
        (.number 1) (.number 2)).response = .serverError := by
  have h1 : isNearby (.number 1) (.number 2) homeReminder = true :=
    isNearby_at_target homeReminder homeLocation 2 1 rfl rfl
      (by simp [radiusOrDefault, homeLocation])
  have h2 : isNearby (.number 1) (.number 2) officeReminder = true :=
    isNearby_at_target officeReminder { homeLocation with radius := some 300 } 2 1 rfl rfl
      (by simp [radiusOrDefault])
  have hloop := triggerLoop_save_fails (fun r => r.id == 1) 0 (.number 1) (.number 2)
    officeReminder [] h2 (by simp [markTriggered, officeReminder]) [homeReminder] []
    (by simp [markTriggered, homeReminder])
  simp only [List.singleton_append] at hloop
  simp [checkLocationReminders, JSValue.truthy, hloop, h1]

/-- C18, amended: when, for an accepted position, the save of a nearby
candidate fails after the saves of the nearby candidates before it succeeded,
the response is the server error (status 500) and holds no reminder; the
candidates saved before the failure stay saved as triggered and are not
returned. -/
theorem checkLocationReminders_save_failure (earlier later : List Reminder) (r : Reminder)
    (saveOk : Reminder → Bool) (now : Date) (latitude longitude : JSValue)
    (hlat : latitude.truthy = true) (hlng : longitude.truthy = true)
    (hearlier : ∀ c ∈ earlier, isNearby latitude longitude c = true →
      saveOk (markTriggered now c) = true)
    (hr : isNearby latitude longitude r = true)
    (hfail : saveOk (markTriggered now r) = false) :
    (checkLocationReminders (some (earlier ++ r :: later)) saveOk now
        latitude longitude).response = .serverError ∧
    (checkLocationReminders (some (earlier ++ r :: later)) saveOk now
        latitude longitude).saved
      = (earlier.filter (isNearby latitude longitude)).map (markTriggered now) := by
  have hloop := triggerLoop_save_fails saveOk now latitude longitude r later hr hfail
    earlier [] hearlier
  simp only [List.nil_append] at hloop
  simp [checkLocationReminders, hlat, hlng, hloop]

/-- Witness of C18, amended: a single nearby candidate whose save fails. -/
theorem checkLocationReminders_save_failure_witness :
    (checkLocationReminders (some [officeReminder]) (fun _ => false) 0
        (.number 1) (.number 2)).response = .serverError ∧
    (checkLocationReminders (some [officeReminder]) (fun _ => false) 0
        (.number 1) (.number 2)).saved = [] :=
  checkLocationReminders_save_failure [] [] officeReminder (fun _ => false) 0
    (.number 1) (.number 2) (by simp [JSValue.truthy]) (by simp [JSValue.truthy])
    (by simp)
    (isNearby_at_target officeReminder { homeLocation with radius := some 300 } 2 1 rfl rfl
      (by simp [radiusOrDefault]))
    rfl

/-! ## The record of `createReminder` -/

theorem category_toJS_nonempty (c : Category) : c.toJS.isEmpty = false := by
  cases c <;> decide

theorem priority_toJS_nonempty (p : Priority) : p.toJS.isEmpty = false := by
  cases p <;> decide

theorem triggerType_toJS_nonempty (t : TriggerType) : t.toJS.isEmpty = false := by
  cases t <;> decide

/-- The fields of the record that `createReminder` fills from the parse
result, for a body with an input to parse and no title. -/
theorem reminderData_parsed_fields (chronoParse : JSString → List ParsedResult)
    (client : JSString → Option (List GeocodeResult)) (userId : Nat) (body : ReminderBody)
    (hinput : isSet body.originalInput = true) (htitle : isSet body.title = false) :
    (reminderData chronoParse client userId body).title
      = some (parseReminder chronoParse (body.originalInput.getD [])).task ∧
    (reminderData chronoParse client userId body).category
      = some (parseReminder chronoParse (body.originalInput.getD [])).category.toJS ∧
    (reminderData chronoParse client userId body).priority
      = some (parseReminder chronoParse (body.originalInput.getD [])).priority.toJS ∧
    (reminderData chronoParse client userId body).triggerType
      = some (parseReminder chronoParse (body.originalInput.getD [])).triggerType.toJS ∧
    (reminderData chronoParse client userId body).dueDate
      = (match (parseReminder chronoParse (body.originalInput.getD [])).dueDate with
          | some date => some date
          | none => body.dueDate) := by
  simp only [reminderData, hinput, htitle, Bool.not_false, Bool.and_self, if_true, orField,
    category_toJS_nonempty, priority_toJS_nonempty, triggerType_toJS_nonempty,
    Bool.false_eq_true, if_false]
  split
  · split
    · split <;> simp
    · simp
  · simp

/-- C19, as stated, fails: for the input "Pay electricity bill before Sunday"
and the explicit category "Work", priority "high", trigger type "location"
and due date 5, the record holds the category "Bills", the priority "medium"
and the trigger type "time" of the parse result, and the date 99 that the
date recognizer found. -/
theorem reminderData_overrides_explicit :
    explicitBody.category = some (utf16 "Work") ∧
    explicitBody.priority = some (utf16 "high") ∧
    explicitBody.triggerType = some (utf16 "location") ∧
    explicitBody.dueDate = some 5 ∧
    (reminderData (fun _ => [⟨utf16 "Sunday", 99⟩]) failingClient 7 explicitBody).category
      = some (utf16 "Bills") ∧
    (reminderData (fun _ => [⟨utf16 "Sunday", 99⟩]) failingClient 7 explicitBody).priority
      = some (utf16 "medium") ∧
    (reminderData (fun _ => [⟨utf16 "Sunday", 99⟩]) failingClient 7 explicitBody).triggerType
      = some (utf16 "time") ∧
    (reminderData (fun _ => [⟨utf16 "Sunday", 99⟩]) failingClient 7 explicitBody).dueDate
      = some 99 := by
  have hp : parseReminder (fun _ => [⟨utf16 "Sunday", 99⟩]) payBillText
      = { originalInput := payBillText
          task := utf16 "Pay electricity bill before"
          location := none
          dueDate := some 99
          category := .Bills
          priority := .medium
          triggerType := .time } := by decide
  obtain ⟨_, h2, h3, h4, h5⟩ := reminderData_parsed_fields
    (fun _ => [⟨utf16 "Sunday", 99⟩]) failingClient 7 explicitBody (by decide) (by decide)
  have he : explicitBody.originalInput.getD [] = payBillText := rfl
  rw [he, hp] at h2 h3 h4 h5
  exact ⟨rfl, rfl, rfl, rfl, h2, h3, h4, h5⟩

/-- C19, amended: for a request with an input to parse and no title, the
category, the priority and the trigger type of the record are those of the
parse result, whatever the body holds for them; the due date is the parsed
date when the parse produced one and the date of the body otherwise; the
title is the parsed task. -/
theorem reminderData_parse_wins (chronoParse : JSString → List ParsedResult)
    (client : JSString → Option (List GeocodeResult)) (userId : Nat) (body : ReminderBody)
    (hinput : isSet body.originalInput = true) (htitle : isSet body.title = false) :
    (reminderData chronoParse client userId body).title
      = some (parseReminder chronoParse (body.originalInput.getD [])).task ∧
    (reminderData chronoParse client userId body).category
      = some (parseReminder chronoParse (body.originalInput.getD [])).category.toJS ∧
    (reminderData chronoParse client userId body).priority
      = some (parseReminder chronoParse (body.originalInput.getD [])).priority.toJS ∧
    (reminderData chronoParse client userId body).triggerType
      = some (parseReminder chronoParse (body.originalInput.getD [])).triggerType.toJS ∧
    (∀ date, (parseReminder chronoParse (body.originalInput.getD [])).dueDate = some date →
      (reminderData chronoParse client userId body).dueDate = some date) ∧
    ((parseReminder chronoParse (body.originalInput.getD [])).dueDate = none →
      (reminderData chronoParse client userId body).dueDate = body.dueDate) := by
  obtain ⟨h1, h2, h3, h4, h5⟩ :=
    reminderData_parsed_fields chronoParse client userId body hinput htitle
  refine ⟨h1, h2, h3, h4, ?_, ?_⟩
  · intro date hd
    rw [h5, hd]
  · intro hd
    rw [h5, hd]

/-- Witness of C19, amended: with no date found the explicit due date 5 is
kept, and the category is "Bills", not the explicit "Work". -/
theorem reminderData_parse_wins_witness :
    (reminderData noDates failingClient 7 explicitBody).category = some (utf16 "Bills") ∧
    (reminderData noDates failingClient 7 explicitBody).dueDate = some 5 := by
  have hp : (parseReminder noDates payBillText).category = .Bills ∧
      (parseReminder noDates payBillText).dueDate = none := by decide
  have h := reminderData_parse_wins noDates failingClient 7 explicitBody
    (by decide) (by decide)
  have he : explicitBody.originalInput.getD [] = payBillText := rfl
  rw [he] at h
  refine ⟨?_, ?_⟩
  · rw [h.2.1, hp.1]; rfl
  · rw [h.2.2.2.2.2 hp.2]; rfl

/-- When `geocodePlace` throws or finds nothing for the parsed place, the
location of the record is the location of the body: nothing of the parsed
location is stored. -/
theorem reminderData_location_not_geocoded (chronoParse : JSString → List ParsedResult)
    (client : JSString → Option (List GeocodeResult)) (userId : Nat) (body : ReminderBody)
    (hclient : ∀ placeName, client placeName = none ∨ client placeName = some []) :
    (reminderData chronoParse client userId body).location = body.location := by
  unfold reminderData
  simp only
  split
  · split
    · next location _ =>
      split
      · have hg : geocodePlace client location.placeName = .error () ∨
            geocodePlace client location.placeName = .ok none := by
          rcases hclient location.placeName with h | h
          · left; simp [geocodePlace, h]
          · right; simp [geocodePlace, h]
        rcases hg with hg | hg <;> simp [hg]
      · rfl
    · rfl
  · rfl

/-- C20, on the code: for the body that holds only the input "Call John when
I reach office" the parser finds the place "office" with radius 500; when the
geocoder throws, and when it finds no result, the record passed to
persistence has trigger type "location" and no location at all, where the
handler `parseReminder` keeps the place name and the radius in its response
for the same text and the same failure. -/
theorem createReminder_drops_location :
    (parseReminder noDates callJohnText).location = some ⟨utf16 "office", 500⟩ ∧
    (reminderData noDates failingClient 7 callJohnBody).location = none ∧
    (reminderData noDates emptyClient 7 callJohnBody).location = none ∧
    (reminderData noDates failingClient 7 callJohnBody).triggerType
      = some (utf16 "location") ∧
    ReminderController.parseReminder noDates failingClient (some callJohnText)
      = .ok (parseReminder noDates callJohnText)
          (some { coordinates := none, address := none, placeName := some (utf16 "office"),
                  placeType := none, radius := some 500 }) := by
  have hp : (parseReminder noDates callJohnText).location = some ⟨utf16 "office", 500⟩ ∧
      (parseReminder noDates callJohnText).triggerType = .location := by decide
  have hset : isSet (some callJohnText) = true := by decide
  have hoffice : (utf16 "office").isEmpty = false := by decide
  refine ⟨hp.1, ?_, ?_, ?_, ?_⟩
  · exact reminderData_location_not_geocoded noDates failingClient 7 callJohnBody
      (fun _ => Or.inl rfl)
  · exact reminderData_location_not_geocoded noDates emptyClient 7 callJohnBody
      (fun _ => Or.inr rfl)
  · have h := (reminderData_parsed_fields noDates failingClient 7 callJohnBody
      hset rfl).2.2.2.1
    have he : callJohnBody.originalInput.getD [] = callJohnText := rfl
    rw [he, hp.2] at h
    exact h
  · simp [ReminderController.parseReminder, hset, hp.1, hoffice, geocodePlace, failingClient]

/-! ## Geocoding in the handlers -/

/-- The radius of a location found by the parser is 500. -/
theorem extractLocationTriggers_radius (text : JSString) (location : Location)
    (h : extractLocationTriggers text = some location) : location.radius = 500 := by
  unfold extractLocationTriggers at h
  obtain ⟨pattern, _, hp⟩ := List.exists_of_findSome?_eq_some h
  split at hp
  · cases hp; rfl
  · exact absurd hp (by simp)

/-- The parser finds no location in the empty text. -/
theorem extractLocationTriggers_empty : extractLocationTriggers [] = none := by decide

/-- An input in which the parser finds a location is a text that the handlers
parse. -/
theorem isSet_of_location (chronoParse : JSString → List ParsedResult) (text : JSString)
    (location : Location) (h : (parseReminder chronoParse text).location = some location) :
    isSet (some text) = true := by
  cases text with
  | nil =>
    have : (parseReminder chronoParse []).location = none := by
      simp only [parseReminder, extractLocationTriggers_empty]
    rw [this] at h
    exact absurd h (by simp)
  | cons c cs => rfl

/-- C21: for every input in which the parser finds a place, when `geocodePlace`
throws, the handler `parseReminder` responds with success and the parsed
reminder, whose location holds the place name and the radius 500 and no
coordinates, and `createReminder` passes its record to persistence and
responds with status 201 when persistence succeeds. -/
theorem geocoder_failure_absorbed (chronoParse : JSString → List ParsedResult)
    (client : JSString → Option (List GeocodeResult)) (text : JSString)
    (location : Location)
    (hloc : (parseReminder chronoParse text).location = some location)
    (hthrow : geocodePlace client location.placeName = .error ()) :
    ReminderController.parseReminder chronoParse client (some text)
      = .ok (parseReminder chronoParse text)
          (some { coordinates := none, address := none,
                  placeName := some location.placeName, placeType := none,
                  radius := some 500 }) ∧
    (∀ (createOk : ReminderData → Bool) (userId : Nat) (body : ReminderBody),
      body.originalInput = some text → isSet body.title = false →
      createOk (reminderData chronoParse client userId body) = true →
      createReminder chronoParse client createOk userId body
        = .created (reminderData chronoParse client userId body) ∧
      (reminderData chronoParse client userId body).title
        = some (parseReminder chronoParse text).task) := by
  have hset := isSet_of_location chronoParse text location hloc
  have hrad : location.radius = 500 := by
    apply extractLocationTriggers_radius text
    simpa [parseReminder] using hloc
  constructor
  · simp only [ReminderController.parseReminder, hset, Bool.not_true, Bool.false_eq_true,
      if_false, Option.getD_some, hloc, hthrow, hrad, Nat.cast_ofNat, ite_self]
  · intro createOk userId body hinput htitle hok
    refine ⟨by simp only [createReminder, hok, if_true], ?_⟩
    have h := (reminderData_parsed_fields chronoParse client userId body
      (by rw [hinput]; exact hset) htitle).1
    rw [hinput] at h
    exact h

/-- Witness of C21: "Call John when I reach office" with a geocoder that
throws. -/
theorem geocoder_failure_absorbed_witness :
    ReminderController.parseReminder noDates failingClient (some callJohnText)
      = .ok (parseReminder noDates callJohnText)
          (some { coordinates := none, address := none,
                  placeName := some (utf16 "office"), placeType := none,
                  radius := some 500 }) ∧
    createReminder noDates failingClient (fun _ => true) 7 callJohnBody
      = .created (reminderData noDates failingClient 7 callJohnBody) := by
  have hp : (parseReminder noDates callJohnText).location = some ⟨utf16 "office", 500⟩ := by
    decide
  have h := geocoder_failure_absorbed noDates failingClient callJohnText
    ⟨utf16 "office", 500⟩ hp rfl
  exact ⟨h.1, (h.2 (fun _ => true) 7 callJohnBody rfl rfl rfl).1⟩

/-- C22: when `geocodePlace` succeeds for the place that the parser found, the
location in the response of the handler `parseReminder` and the location of
the record of `createReminder` hold the coordinates, the address and the
place type of the geocoder, the place name of the parser and the radius 500
of the parser. -/
theorem geocoder_success_merged (chronoParse : JSString → List ParsedResult)
    (client : JSString → Option (List GeocodeResult)) (text : JSString)
    (location : Location) (data : LocationData)
    (hloc : (parseReminder chronoParse text).location = some location)
    (hname : location.placeName.isEmpty = false)
    (hgeo : geocodePlace client location.placeName = .ok (some data)) :
    ReminderController.parseReminder chronoParse client (some text)
      = .ok (parseReminder chronoParse text)
          (some { coordinates := some data.coordinates, address := some data.address,
                  placeName := some location.placeName,
                  placeType := some data.placeType, radius := some 500 }) ∧
    (∀ (userId : Nat) (body : ReminderBody),
      body.originalInput = some text → isSet body.title = false →
      (reminderData chronoParse client userId body).location
        = some { coordinates := some data.coordinates, address := some data.address,
                 placeName := some location.placeName,
                 placeType := some data.placeType, radius := some 500 }) := by
  have hset := isSet_of_location chronoParse text location hloc
  have hrad : location.radius = 500 := by
    apply extractLocationTriggers_radius text
    simpa [parseReminder] using hloc
  have hdata : data.placeName = location.placeName := by
    unfold geocodePlace at hgeo
    split at hgeo
    · exact absurd hgeo (by simp)
    · exact absurd hgeo (by simp)
    · simp only [Except.ok.injEq, Option.some.injEq] at hgeo
      rw [← hgeo]
  constructor
  · simp only [ReminderController.parseReminder, hset, Bool.not_true, Bool.false_eq_true,
      if_false, Option.getD_some, hloc, hname, Bool.not_false, if_true, hgeo, hrad, hdata,
      Nat.cast_ofNat]
  · intro userId body hinput htitle
    have hin : isSet body.originalInput = true := by rw [hinput]; exact hset
    simp only [reminderData, hin, htitle, Bool.not_false, Bool.and_self, if_true, hinput,
      Option.getD_some, hloc, hname, hgeo, hrad]
    norm_num [hset]

/-- Witness of C22: "Call John when I reach office" with a geocoder that
resolves the place to longitude 2, latitude 1. -/
theorem geocoder_success_merged_witness :
    (reminderData noDates officeClient 7 callJohnBody).location
      = some { coordinates := some (2, 1), address := some (utf16 "1 Main Street"),
               placeName := some (utf16 "office"), placeType := some (utf16 "premise"),
               radius := some 500 } := by
  have hp : (parseReminder noDates callJohnText).location = some ⟨utf16 "office", 500⟩ := by
    decide
  have ht : (utf16 "premise").isEmpty = false := by decide
  have hg : geocodePlace officeClient (utf16 "office")
      = .ok (some { coordinates := (2, 1), address := utf16 "1 Main Street",
                    placeName := utf16 "office", placeType := utf16 "premise" }) := by
    simp [geocodePlace, officeClient, ht]
  exact (geocoder_success_merged noDates officeClient callJohnText ⟨utf16 "office", 500⟩
    _ hp (by decide) hg).2 7 callJohnBody rfl rfl

/-! ## Bounds of the distance -/

/-- For a point of the closed first quadrant `atan2` is between 0 and `π / 2`. -/
theorem atan2_quadrant (y x : ℝ) (hy : 0 ≤ y) (hx : 0 ≤ x) :
    0 ≤ atan2 y x ∧ atan2 y x ≤ Real.pi / 2 := by
  constructor
  · exact Complex.arg_nonneg_iff.mpr hy
  · exact Complex.arg_le_pi_div_two_iff.mpr (Or.inl hx)

/-- The arc for a point of the closed first quadrant is between 0 and half
the circumference. -/
theorem arc_quadrant (y x : ℝ) (hy : 0 ≤ y) (hx : 0 ≤ x) :
    0 ≤ 6371000 * (2 * atan2 y x) ∧ 6371000 * (2 * atan2 y x) ≤ Real.pi * 6371000 := by
  obtain ⟨h1, h2⟩ := atan2_quadrant y x hy hx
  constructor <;> nlinarith

/-- The distance is never negative. -/
theorem calculateDistance_nonneg (lat1 lng1 lat2 lng2 : ℝ) :
    0 ≤ calculateDistance lat1 lng1 lat2 lng2 := by
  simp only [calculateDistance]
  exact (arc_quadrant _ _ (Real.sqrt_nonneg _) (Real.sqrt_nonneg _)).1

/-- The haversine term is between 0 and 1, for angles `p`, `q` and a
difference of longitudes `l`. -/
theorem haversine_term_bounds (p q l : ℝ) :
    0 ≤ Real.sin ((q - p) / 2) * Real.sin ((q - p) / 2) +
        Real.cos p * Real.cos q * Real.sin (l / 2) * Real.sin (l / 2) ∧
    Real.sin ((q - p) / 2) * Real.sin ((q - p) / 2) +
        Real.cos p * Real.cos q * Real.sin (l / 2) * Real.sin (l / 2) ≤ 1 := by
  have h1 : Real.sin ((q - p) / 2) * Real.sin ((q - p) / 2) = 1 / 2 - Real.cos (q - p) / 2 := by
    have h := Real.sin_sq_eq_half_sub ((q - p) / 2)
    have e : 2 * ((q - p) / 2) = q - p := by ring
    rw [sq, e] at h
    exact h
  have h2 : Real.cos p * Real.cos q = (Real.cos (q - p) + Real.cos (q + p)) / 2 := by
    rw [Real.cos_sub, Real.cos_add]
    ring
  have ht0 : 0 ≤ Real.sin (l / 2) * Real.sin (l / 2) := mul_self_nonneg _
  have ht1 : Real.sin (l / 2) * Real.sin (l / 2) ≤ 1 := by
    have := Real.sin_sq_le_one (l / 2)
    rwa [sq] at this
  have hm1 := Real.neg_one_le_cos (q - p)
  have hm2 := Real.cos_le_one (q - p)
  have hp1 := Real.neg_one_le_cos (q + p)
  have hp2 := Real.cos_le_one (q + p)
  rw [mul_assoc (Real.cos p * Real.cos q), h1, h2]
  constructor <;> nlinarith

/-- In exact arithmetic the haversine term `a` lies between 0 and 1 and the
distance lies between 0 and `π · 6371000`. -/
theorem calculateDistance_bounds (lat1 lng1 lat2 lng2 : ℝ) :
    (0 ≤ Real.sin ((lat2 - lat1) * Real.pi / 180 / 2) *
          Real.sin ((lat2 - lat1) * Real.pi / 180 / 2) +
        Real.cos (lat1 * Real.pi / 180) * Real.cos (lat2 * Real.pi / 180) *
          Real.sin ((lng2 - lng1) * Real.pi / 180 / 2) *
          Real.sin ((lng2 - lng1) * Real.pi / 180 / 2) ∧
      Real.sin ((lat2 - lat1) * Real.pi / 180 / 2) *
          Real.sin ((lat2 - lat1) * Real.pi / 180 / 2) +
        Real.cos (lat1 * Real.pi / 180) * Real.cos (lat2 * Real.pi / 180) *
          Real.sin ((lng2 - lng1) * Real.pi / 180 / 2) *
          Real.sin ((lng2 - lng1) * Real.pi / 180 / 2) ≤ 1) ∧
    0 ≤ calculateDistance lat1 lng1 lat2 lng2 ∧
    calculateDistance lat1 lng1 lat2 lng2 ≤ Real.pi * 6371000 := by
  refine ⟨?_, ?_, ?_⟩
  · have h := haversine_term_bounds (lat1 * Real.pi / 180) (lat2 * Real.pi / 180)
      ((lng2 - lng1) * Real.pi / 180)
    have e : (lat2 - lat1) * Real.pi / 180 = lat2 * Real.pi / 180 - lat1 * Real.pi / 180 := by
      ring
    rw [e]
    exact h
  · simp only [calculateDistance]
    exact (arc_quadrant _ _ (Real.sqrt_nonneg _) (Real.sqrt_nonneg _)).1
  · simp only [calculateDistance]
    exact (arc_quadrant _ _ (Real.sqrt_nonneg _) (Real.sqrt_nonneg _)).2

/-! ## The distance in floating point -/

/-- On a term between 0 and 1 the last lines of `calculateDistance` give a
distance between 0 and `π · 6371000`. -/
theorem distanceOfTerm_bounds (a : ℝ) (h0 : 0 ≤ a) (h1 : a ≤ 1) :
    ∃ d, distanceOfTerm a = some d ∧ 0 ≤ d ∧ d ≤ Real.pi * 6371000 := by
  have ha : ¬ a < 0 := not_lt.mpr h0
  have hb : ¬ 1 - a < 0 := by linarith
  obtain ⟨h2, h3⟩ := atan2_quadrant (Real.sqrt a) (Real.sqrt (1 - a))
    (Real.sqrt_nonneg _) (Real.sqrt_nonneg _)
  refine ⟨6371000 * (2 * atan2 (Real.sqrt a) (Real.sqrt (1 - a))), ?_, ?_, ?_⟩
  · simp [distanceOfTerm, Math.sqrt, ha, hb]
  · nlinarith
  · nlinarith

/-- On a term above 1 the last lines of `calculateDistance` give `NaN`:
`1 - a` is negative and has no square root. -/
theorem distanceOfTerm_above_one (a : ℝ) (h : 1 < a) : distanceOfTerm a = none := by
  have hb : 1 - a < 0 := by linarith
  simp [distanceOfTerm, Math.sqrt, hb]

/-- In exact arithmetic the last lines, on the term of the first lines, give
`calculateDistance`. -/
theorem distanceOfTerm_exact (lat1 lng1 lat2 lng2 : ℝ) :
    distanceOfTerm (haversineTerm lat1 lng1 lat2 lng2)
      = some (calculateDistance lat1 lng1 lat2 lng2) := by
  have hb := haversine_term_bounds (lat1 * Real.pi / 180) (lat2 * Real.pi / 180)
    ((lng2 - lng1) * Real.pi / 180)
  have e : lat2 * Real.pi / 180 - lat1 * Real.pi / 180 = (lat2 - lat1) * Real.pi / 180 := by
    ring
  rw [e] at hb
  have ha : ¬ haversineTerm lat1 lng1 lat2 lng2 < 0 := not_lt.mpr hb.1
  have hc : ¬ 1 - haversineTerm lat1 lng1 lat2 lng2 < 0 := by
    have := hb.2
    simp only [haversineTerm]
    linarith
  simp only [distanceOfTerm, Math.sqrt, ha, hc, if_false]
  rfl

/-- In exact arithmetic the term between the points at latitude -87.5,
longitude -180 and latitude 87.5, longitude 0, which lie opposite on the
sphere, is 1. -/
theorem haversineTerm_antipodes : haversineTerm (-87.5) (-180) 87.5 0 = 1 := by
  have e1 : (87.5 - (-87.5)) * Real.pi / 180 / 2 = 87.5 * Real.pi / 180 := by ring
  have e2 : (-87.5 : ℝ) * Real.pi / 180 = -(87.5 * Real.pi / 180) := by ring
  have e3 : ((0 : ℝ) - (-180)) * Real.pi / 180 / 2 = Real.pi / 2 := by ring
  simp only [haversineTerm, e1, e2, e3, Real.cos_neg, Real.sin_pi_div_two, mul_one]
  have := Real.sin_sq_add_cos_sq (87.5 * Real.pi / 180)
  nlinarith

/-- The last lines of `calculateDistance` on the term 1 give `π · 6371000`. -/
theorem distanceOfTerm_one : distanceOfTerm 1 = some (Real.pi * 6371000) := by
  have hI : (⟨0, 1⟩ : ℂ) = Complex.I := rfl
  simp only [distanceOfTerm, Math.sqrt]
  norm_num [atan2, hI, Complex.arg_I]
  ring

/-- C26, on the code: between the points at latitude -87.5, longitude -180
and latitude 87.5, longitude 0 the haversine term is 1 in exact arithmetic,
where the distance is `π · 6371000`, the upper end of the range. The program
computes the term in doubles, and the last lines of `calculateDistance` on a
computed term just above 1, the double 1 + 2⁻⁵² = 1.0000000000000002, give
`NaN`: `1 - a` is negative, and `Math.sqrt(1 - a)` is `NaN`. -/
theorem calculateDistance_nan_above_one :
    haversineTerm (-87.5) (-180) 87.5 0 = 1 ∧
    calculateDistance (-87.5) (-180) 87.5 0 = Real.pi * 6371000 ∧
    distanceOfTerm 1 = some (Real.pi * 6371000) ∧
    (1 : ℝ) < 1 + 1 / 2 ^ 52 ∧
    distanceOfTerm (1 + 1 / 2 ^ 52) = none := by
  refine ⟨haversineTerm_antipodes, ?_, distanceOfTerm_one, by norm_num,
    distanceOfTerm_above_one _ (by norm_num)⟩
  have h := distanceOfTerm_exact (-87.5) (-180) 87.5 0
  rw [haversineTerm_antipodes, distanceOfTerm_one] at h
  exact (Option.some.inj h).symm

/-! ## A short distance -/

/-- The angle of the last lines of `calculateDistance` is at most `π / 2`
times the root of the term. -/
theorem atan2_le_sqrt (a : ℝ) (h0 : 0 ≤ a) (h1 : a ≤ 1) :
    atan2 (Real.sqrt a) (Real.sqrt (1 - a)) ≤ Real.pi / 2 * Real.sqrt a := by
  obtain ⟨ht0, ht1⟩ := atan2_quadrant (Real.sqrt a) (Real.sqrt (1 - a))
    (Real.sqrt_nonneg _) (Real.sqrt_nonneg _)
  have habs : Complex.abs ⟨Real.sqrt (1 - a), Real.sqrt a⟩ = 1 := by
    rw [Complex.abs_apply, Complex.normSq_mk, Real.mul_self_sqrt (by linarith),
      Real.mul_self_sqrt h0]
    norm_num
  have hsin : Real.sin (atan2 (Real.sqrt a) (Real.sqrt (1 - a))) = Real.sqrt a := by
    unfold atan2
    rw [Complex.sin_arg, habs]
    simp
  have hj := Real.mul_le_sin ht0 ht1
  rw [hsin] at hj
  have hpi := Real.pi_pos
  have e : atan2 (Real.sqrt a) (Real.sqrt (1 - a))
      = Real.pi / 2 * (2 / Real.pi * atan2 (Real.sqrt a) (Real.sqrt (1 - a))) := by
    field_simp
    ring
  rw [e]
  exact mul_le_mul_of_nonneg_left hj (by positivity)

/-- The square of a sine is at most the square of its angle. -/
theorem sin_mul_self_le (x : ℝ) : Real.sin x * Real.sin x ≤ x * x := by
  have h := @Real.sin_sq_le_sq x
  rwa [sq, sq] at h

/-- The haversine term is at most the sum of the squares of the two half
differences. -/
theorem haversine_term_le (p q u v : ℝ) :
    Real.sin u * Real.sin u + Real.cos p * Real.cos q * Real.sin v * Real.sin v
      ≤ u * u + v * v := by
  have hu := sin_mul_self_le u
  have hv := sin_mul_self_le v
  have hv0 : 0 ≤ Real.sin v * Real.sin v := mul_self_nonneg _
  have hc : Real.cos p * Real.cos q ≤ 1 := by
    have h1 := Real.cos_le_one p
    have h2 := Real.cos_le_one q
    have h3 := Real.neg_one_le_cos p
    have h4 := Real.neg_one_le_cos q
    nlinarith
  have : Real.cos p * Real.cos q * Real.sin v * Real.sin v
      ≤ Real.sin v * Real.sin v := by
    rw [mul_assoc (Real.cos p * Real.cos q)]
    nlinarith
  linarith

/-- The distance is at most `π · 6371000` times the root of the sum of the
squares of the two half differences, in radians. -/
theorem calculateDistance_le (lat1 lng1 lat2 lng2 : ℝ) :
    calculateDistance lat1 lng1 lat2 lng2 ≤
      6371000 * (Real.pi * Real.sqrt
        ((lat2 - lat1) * Real.pi / 180 / 2 * ((lat2 - lat1) * Real.pi / 180 / 2) +
          (lng2 - lng1) * Real.pi / 180 / 2 * ((lng2 - lng1) * Real.pi / 180 / 2))) := by
  have hb := haversine_term_bounds (lat1 * Real.pi / 180) (lat2 * Real.pi / 180)
    ((lng2 - lng1) * Real.pi / 180)
  have e : lat2 * Real.pi / 180 - lat1 * Real.pi / 180 = (lat2 - lat1) * Real.pi / 180 := by
    ring
  rw [e] at hb
  have hle := haversine_term_le (lat1 * Real.pi / 180) (lat2 * Real.pi / 180)
    ((lat2 - lat1) * Real.pi / 180 / 2) ((lng2 - lng1) * Real.pi / 180 / 2)
  have ha := atan2_le_sqrt _ hb.1 hb.2
  have hs := Real.sqrt_le_sqrt hle
  have hpi := Real.pi_pos
  simp only [calculateDistance]
  nlinarith [mul_le_mul_of_nonneg_left hs hpi.le]

/-- The distance from latitude 0.001, longitude 0.001 to latitude 0,
longitude 0 is at most 500 metres. -/
theorem calculateDistance_near_origin : calculateDistance 0.001 0.001 0 0 ≤ 500 := by
  have h := calculateDistance_le 0.001 0.001 0 0
  have hpi := Real.pi_pos
  have hpi4 := Real.pi_lt_d2
  have hs : Real.sqrt
      ((0 - 0.001) * Real.pi / 180 / 2 * ((0 - 0.001) * Real.pi / 180 / 2) +
        (0 - 0.001) * Real.pi / 180 / 2 * ((0 - 0.001) * Real.pi / 180 / 2))
      ≤ Real.pi / 180000 := by
    rw [Real.sqrt_le_left (by positivity)]
    nlinarith
  have : 6371000 * (Real.pi * (Real.pi / 180000)) ≤ 500 := by nlinarith
  have h2 := mul_le_mul_of_nonneg_left hs hpi.le
  nlinarith

/-! ## Candidates that cannot trigger -/

/-- `radius || 500` is never 0. -/
theorem radiusOrDefault_ne_zero (radius : Option ℝ) : radiusOrDefault radius ≠ 0 := by
  unfold radiusOrDefault
  split
  · split
    · norm_num
    · assumption
  · norm_num

/-- Whether a reminder is nearby depends on its location only. -/
theorem isNearby_congr (latitude longitude : JSValue) (c d : Reminder)
    (h : c.location = d.location) :
    isNearby latitude longitude c = isNearby latitude longitude d := by
  simp only [isNearby, h]

/-- A reminder that fails the guard of the loop, for want of a location or
of coordinates, or whose radius is not positive after defaulting, is not
nearby at any position. A document that the schema built passes the guard,
see `schemaLocation`. -/
theorem isNearby_unusable (latitude longitude : JSValue) (c : Reminder)
    (h : c.location = none ∨
      (∃ l, c.location = some l ∧ l.coordinates = none) ∨
      (∃ l, c.location = some l ∧ radiusOrDefault l.radius ≤ 0)) :
    isNearby latitude longitude c = false := by
  rcases h with h | ⟨l, hl, hc⟩ | ⟨l, hl, hr⟩
  · simp only [isNearby, h]
  · simp only [isNearby, hl, hc]
  · have hneg : radiusOrDefault l.radius < 0 :=
      lt_of_le_of_ne hr (radiusOrDefault_ne_zero l.radius)
    simp only [isNearby, hl]
    split
    · split
      · next lat lng _ _ =>
        simp only [isWithinRadius, decide_eq_false_iff_not, not_le]
        exact lt_of_lt_of_le hneg (calculateDistance_nonneg _ _ _ _)
      · rfl
    · rfl

/-- A reminder that is not nearby leaves the loop as it would be without
it. -/
theorem triggerLoop_skip (saveOk : Reminder → Bool) (now : Date)
    (latitude longitude : JSValue) (c : Reminder) (later : List Reminder)
    (hc : isNearby latitude longitude c = false) :
    ∀ (earlier triggeredReminders : List Reminder),
      triggerLoop saveOk now latitude longitude (earlier ++ c :: later) triggeredReminders
        = triggerLoop saveOk now latitude longitude (earlier ++ later)
            triggeredReminders := by
  intro earlier
  induction earlier with
  | nil =>
    intro acc
    simp [triggerLoop, hc]
  | cons d rest ih =>
    intro acc
    simp only [List.cons_append]
    rw [triggerLoop, triggerLoop, ih, ih]

/-- What the loop saves, beyond the reminders collected before, are marked
copies of nearby reminders of its list. -/
theorem triggerLoop_mem (saveOk : Reminder → Bool) (now : Date)
    (latitude longitude : JSValue) :
    ∀ (reminders triggeredReminders result : List Reminder),
      (triggerLoop saveOk now latitude longitude reminders triggeredReminders = .ok result ∨
        triggerLoop saveOk now latitude longitude reminders triggeredReminders
          = .error result) →
      ∀ x ∈ result, x ∈ triggeredReminders ∨
        ∃ d ∈ reminders, isNearby latitude longitude d = true ∧ x = markTriggered now d := by
  intro reminders
  induction reminders with
  | nil =>
    intro acc result h x hx
    simp only [triggerLoop] at h
    rcases h with h | h
    · cases h; exact Or.inl hx
    · exact absurd h (by simp)
  | cons r rest ih =>
    intro acc result h x hx
    unfold triggerLoop at h
    by_cases hr : isNearby latitude longitude r = true
    · simp only [hr, if_true] at h
      by_cases hs : saveOk (markTriggered now r) = true
      · simp only [hs, if_true] at h
        rcases ih _ _ h x hx with h1 | ⟨d, hd, hn, he⟩
        · rcases List.mem_append.mp h1 with h2 | h2
          · exact Or.inl h2
          · right
            refine ⟨r, List.mem_cons_self _ _, hr, ?_⟩
            simpa using h2
        · exact Or.inr ⟨d, List.mem_cons_of_mem _ hd, hn, he⟩
      · simp only [hs, Bool.false_eq_true, if_false] at h
        rcases h with h | h
        · exact absurd h (by simp)
        · cases h; exact Or.inl hx
    · simp only [hr, Bool.false_eq_true, if_false] at h
      rcases ih _ _ h x hx with h1 | ⟨d, hd, hn, he⟩
      · exact Or.inl h1
      · exact Or.inr ⟨d, List.mem_cons_of_mem _ hd, hn, he⟩

/-- What an invocation saves are marked copies of nearby candidates. -/
theorem saved_mem (candidates : List Reminder) (saveOk : Reminder → Bool) (now : Date)
    (latitude longitude : JSValue) :
    ∀ x ∈ (checkLocationReminders (some candidates) saveOk now latitude longitude).saved,
      ∃ d ∈ candidates, isNearby latitude longitude d = true ∧ x = markTriggered now d := by
  intro x hx
  unfold checkLocationReminders at hx
  split at hx
  · exact absurd hx (by simp)
  · simp only at hx
    split at hx
    · next result hres =>
      rcases triggerLoop_mem saveOk now latitude longitude candidates [] result
        (Or.inl hres) x hx with h | h
      · exact absurd h (by simp)
      · exact h
    · next result hres =>
      rcases triggerLoop_mem saveOk now latitude longitude candidates [] result
        (Or.inr hres) x hx with h | h
      · exact absurd h (by simp)
      · exact h

/-- What an invocation returns it has saved. -/
theorem data_subset_saved (find : Option (List Reminder)) (saveOk : Reminder → Bool)
    (now : Date) (latitude longitude : JSValue) :
    ∀ x ∈ (checkLocationReminders find saveOk now latitude longitude).response.data,
      x ∈ (checkLocationReminders find saveOk now latitude longitude).saved := by
  intro x hx
  by_cases hg : (!latitude.truthy || !longitude.truthy) = true
  · simp [checkLocationReminders, hg, CheckResponse.data] at hx
  · cases find with
    | none => simp [checkLocationReminders, hg, CheckResponse.data] at hx
    | some reminders =>
      cases hres : triggerLoop saveOk now latitude longitude reminders [] with
      | ok result =>
        simp only [checkLocationReminders, hg, hres, CheckResponse.data, if_false] at hx ⊢
        exact hx
      | error result =>
        simp [checkLocationReminders, hg, hres, CheckResponse.data] at hx

/-- A candidate that is not nearby is neither saved nor returned, and the
invocation does what it does on the list without it, so the candidates after
it are evaluated. -/
theorem checkLocationReminders_skips (c : Reminder)
    (earlier later : List Reminder) (saveOk : Reminder → Bool) (now : Date)
    (latitude longitude : JSValue) (hc : isNearby latitude longitude c = false) :
    checkLocationReminders (some (earlier ++ c :: later)) saveOk now latitude longitude
      = checkLocationReminders (some (earlier ++ later)) saveOk now latitude longitude ∧
    markTriggered now c ∉
      (checkLocationReminders (some (earlier ++ c :: later)) saveOk now
        latitude longitude).saved ∧
    markTriggered now c ∉
      (checkLocationReminders (some (earlier ++ c :: later)) saveOk now
        latitude longitude).response.data := by
  have hsaved : markTriggered now c ∉
      (checkLocationReminders (some (earlier ++ c :: later)) saveOk now
        latitude longitude).saved := by
    intro hmem
    obtain ⟨d, _, hd, he⟩ := saved_mem _ saveOk now latitude longitude _ hmem
    have hloc : c.location = d.location := by
      have := congrArg Reminder.location he
      simpa [markTriggered] using this
    rw [isNearby_congr latitude longitude c d hloc, hd] at hc
    exact absurd hc (by simp)
  refine ⟨?_, hsaved, fun hmem => hsaved (data_subset_saved _ _ _ _ _ _ hmem)⟩
  simp only [checkLocationReminders,
    triggerLoop_skip saveOk now latitude longitude c later hc earlier []]

/-! ## A reminder stored without location -/

/-- The schema gives a record without location the coordinates `[0, 0]` and
the radius 500. -/
theorem schemaLocation_none :
    schemaLocation none = ⟨some (0, 0), some [], some [], some [], some 500⟩ := by
  simp [schemaLocation]

/-- C23, on the code: the reminder that `createReminder` stores for "Call
John when I reach office" when the geocoder throws has no location in its
record; the schema gives the document the coordinates `[0, 0]` and the radius
500, so the guard `reminder.location && reminder.location.coordinates` of the
loop holds, and a location check of its owner at latitude 0.001 and longitude
0.001, less than 500 metres from there, finds it nearby, saves it as
triggered and returns it. -/
theorem unlocated_reminder_triggers :
    (reminderData noDates failingClient 7 callJohnBody).location = none ∧
    unlocatedReminder.location
      = some ⟨some (0, 0), some [], some [], some [], some 500⟩ ∧
    isNearby (.number 0.001) (.number 0.001) unlocatedReminder = true ∧
    checkOnStore [unlocatedReminder] 7 (fun _ => true) 0 (.number 0.001) (.number 0.001)
      = ([markTriggered 0 unlocatedReminder],
          ⟨true, [markTriggered 0 unlocatedReminder],
            .ok 1 [markTriggered 0 unlocatedReminder]⟩) := by
  have hrec : (reminderData noDates failingClient 7 callJohnBody).location = none :=
    reminderData_location_not_geocoded noDates failingClient 7 callJohnBody
      (fun _ => Or.inl rfl)
  have hloc : unlocatedReminder.location
      = some ⟨some (0, 0), some [], some [], some [], some 500⟩ := by
    simp only [unlocatedReminder, hrec, schemaLocation_none]
  have hnear : isNearby (.number 0.001) (.number 0.001) unlocatedReminder = true := by
    simp only [isNearby, hloc, JSValue.toNumber, isWithinRadius, decide_eq_true_eq]
    have hr : radiusOrDefault (some 500) = 500 := by simp [radiusOrDefault]
    rw [hr]
    exact calculateDistance_near_origin
  have hfind : Store.find [unlocatedReminder] 7 = [unlocatedReminder] := by
    simp [Store.find, unlocatedReminder]
  have hsave : Store.save [unlocatedReminder] (markTriggered 0 unlocatedReminder)
      = [markTriggered 0 unlocatedReminder] := by
    simp [Store.save, markTriggered]
  have hout : checkLocationReminders (some [unlocatedReminder]) (fun _ => true) 0
      (.number 0.001) (.number 0.001)
      = ⟨true, [markTriggered 0 unlocatedReminder],
          .ok 1 [markTriggered 0 unlocatedReminder]⟩ := by
    have hpos : (JSValue.number 0.001).truthy = true := by
      simp only [JSValue.truthy, decide_eq_true_eq]
      norm_num
    simp [checkLocationReminders, hpos, triggerLoop, hnear]
  refine ⟨hrec, hloc, hnear, ?_⟩
  simp only [checkOnStore, hfind, hout, List.foldl_cons, List.foldl_nil, hsave]

/-! ## One invocation after the other -/

/-- A document of the collection after a save comes from a document with the
same `id`, and either has the `id` of the saved document and its
`isTriggered`, or is unchanged. -/
theorem save_mem (store : Store) (doc r : Reminder) (h : r ∈ store.save doc) :
    ∃ r0 ∈ store, r.id = r0.id ∧
      ((r0.id = doc.id ∧ r.isTriggered = doc.isTriggered) ∨ (r0.id ≠ doc.id ∧ r = r0)) := by
  unfold Store.save at h
  obtain ⟨r0, hr0, he⟩ := List.mem_map.mp h
  refine ⟨r0, hr0, ?_⟩
  by_cases hid : r0.id = doc.id
  · rw [if_pos hid] at he
    subst he
    exact ⟨rfl, Or.inl ⟨hid, rfl⟩⟩
  · rw [if_neg hid] at he
    subst he
    exact ⟨rfl, Or.inr ⟨hid, rfl⟩⟩

/-- After the saves of documents that are all triggered, a document of the
collection comes from one with the same `id` and is triggered, or has kept
its `isTriggered` and has the `id` of none of the saved documents. -/
theorem foldl_save_mem :
    ∀ (saved : List Reminder) (store : Store), (∀ x ∈ saved, x.isTriggered = true) →
      ∀ r ∈ saved.foldl Store.save store,
        ∃ r0 ∈ store, r.id = r0.id ∧
          (r.isTriggered = true ∨
            (r.isTriggered = r0.isTriggered ∧ ∀ x ∈ saved, x.id ≠ r.id)) := by
  intro saved
  induction saved with
  | nil =>
    intro store _ r hr
    exact ⟨r, hr, rfl, Or.inr ⟨rfl, by simp⟩⟩
  | cons x xs ih =>
    intro store hall r hr
    simp only [List.foldl_cons] at hr
    obtain ⟨r1, hr1, hid1, h1⟩ :=
      ih (store.save x) (fun y hy => hall y (List.mem_cons_of_mem _ hy)) r hr
    obtain ⟨r0, hr0, hid0, h0⟩ := save_mem store x r1 hr1
    refine ⟨r0, hr0, hid1.trans hid0, ?_⟩
    rcases h1 with h1 | ⟨h1, hxs⟩
    · exact Or.inl h1
    · rcases h0 with ⟨_, ht⟩ | ⟨hne, he⟩
      · left
        rw [h1, ht]
        exact hall x (List.mem_cons_self _ _)
      · right
        subst he
        refine ⟨h1, ?_⟩
        intro y hy
        rcases List.mem_cons.mp hy with hy | hy
        · subst hy
          rw [hid1]
          exact fun h => hne h.symm
        · exact hxs y hy

/-- The candidates of the query are untouched, active reminders of the user
with a location trigger. -/
theorem find_mem (store : Store) (user : Nat) (r : Reminder) (h : r ∈ store.find user) :
    r ∈ store ∧ r.user = user ∧ r.status = .active ∧
      (r.triggerType = .location ∨ r.triggerType = .both) ∧ r.isTriggered = false := by
  unfold Store.find at h
  obtain ⟨hm, hp⟩ := List.mem_filter.mp h
  simp only [Bool.and_eq_true, Bool.or_eq_true, beq_iff_eq, Bool.not_eq_true'] at hp
  exact ⟨hm, hp.1.1.1, hp.1.1.2, hp.1.2, hp.2⟩

/-- C24: two invocations that run one after the other against the collection,
for any users and positions. No reminder returned, or saved, by the first is
returned, or saved, by the second; every reminder that an invocation saves
was a candidate with `isTriggered` false and is saved with `isTriggered`
true; a candidate of the query is never triggered, never other than active
and never a reminder with a time trigger only. -/
theorem sequential_checks_trigger_once (store : Store) (user1 user2 : Nat)
    (saveOk1 saveOk2 : Reminder → Bool) (now1 now2 : Date)
    (latitude1 longitude1 latitude2 longitude2 : JSValue)
    (first second : Store × CheckOutcome)
    (hfirst : first = checkOnStore store user1 saveOk1 now1 latitude1 longitude1)
    (hsecond : second = checkOnStore first.1 user2 saveOk2 now2 latitude2 longitude2) :
    (∀ r1 ∈ first.2.response.data, ∀ r2 ∈ second.2.response.data, r1.id ≠ r2.id) ∧
    (∀ r1 ∈ first.2.saved, ∀ r2 ∈ second.2.saved, r1.id ≠ r2.id) ∧
    (∀ x ∈ first.2.saved, x.isTriggered = true ∧
      ∃ d ∈ store.find user1, d.isTriggered = false ∧ x = markTriggered now1 d) ∧
    (∀ x ∈ second.2.saved, x.isTriggered = true ∧
      ∃ d ∈ first.1.find user2, d.isTriggered = false ∧ x = markTriggered now2 d) ∧
    (∀ (anyStore : Store) (user : Nat), ∀ r ∈ anyStore.find user,
      r.isTriggered = false ∧ r.status = .active ∧
        (r.triggerType = .location ∨ r.triggerType = .both)) := by
  have hs1 : ∀ x ∈ first.2.saved, x.isTriggered = true ∧
      ∃ d ∈ store.find user1, d.isTriggered = false ∧ x = markTriggered now1 d := by
    intro x hx
    rw [hfirst] at hx
    obtain ⟨d, hd, _, he⟩ := saved_mem _ saveOk1 now1 latitude1 longitude1 x hx
    exact ⟨by rw [he]; rfl, d, hd, (find_mem store user1 d hd).2.2.2.2, he⟩
  have hs2 : ∀ x ∈ second.2.saved, x.isTriggered = true ∧
      ∃ d ∈ first.1.find user2, d.isTriggered = false ∧ x = markTriggered now2 d := by
    intro x hx
    rw [hsecond] at hx
    obtain ⟨d, hd, _, he⟩ := saved_mem _ saveOk2 now2 latitude2 longitude2 x hx
    exact ⟨by rw [he]; rfl, d, hd, (find_mem first.1 user2 d hd).2.2.2.2, he⟩
  have hstore : first.1 = first.2.saved.foldl Store.save store := by
    rw [hfirst]; rfl
  have hdisjoint : ∀ r1 ∈ first.2.saved, ∀ r2 ∈ second.2.saved, r1.id ≠ r2.id := by
    intro r1 h1 r2 h2
    obtain ⟨_, d, hd, hfalse, he⟩ := hs2 r2 h2
    have hmem := (find_mem first.1 user2 d hd).1
    rw [hstore] at hmem
    obtain ⟨r0, _, _, h⟩ :=
      foldl_save_mem first.2.saved store (fun x hx => (hs1 x hx).1) d hmem
    rcases h with h | ⟨_, h⟩
    · rw [hfalse] at h
      exact absurd h (by simp)
    · rw [he, markTriggered_id]
      exact h r1 h1
  refine ⟨?_, hdisjoint, hs1, hs2, ?_⟩
  · intro r1 h1 r2 h2
    apply hdisjoint
    · rw [hfirst] at h1 ⊢
      exact data_subset_saved _ _ _ _ _ _ h1
    · rw [hsecond] at h2 ⊢
      exact data_subset_saved _ _ _ _ _ _ h2
  · intro anyStore user r hr
    obtain ⟨_, _, h1, h2, h3⟩ := find_mem anyStore user r hr
    exact ⟨h3, h1, h2⟩

/-- Witness of C24: user 7 checks twice at latitude 1, longitude 2, against
the collection that holds `homeReminder`; the first invocation saves it, the
second does not save it again. -/
theorem sequential_checks_trigger_once_witness :
    markTriggered 5 homeReminder ∉
      (checkOnStore
        (checkOnStore [homeReminder] 7 (fun _ => true) 0 (.number 1) (.number 2)).1
        7 (fun _ => true) 5 (.number 1) (.number 2)).2.saved := by
  intro h
  have hnear : isNearby (.number 1) (.number 2) homeReminder = true :=
    isNearby_at_target homeReminder homeLocation 2 1 rfl rfl
      (by simp [radiusOrDefault, homeLocation])
  have hfind : Store.find [homeReminder] 7 = [homeReminder] := rfl
  have hmem : markTriggered 0 homeReminder ∈
      (checkOnStore [homeReminder] 7 (fun _ => true) 0 (.number 1) (.number 2)).2.saved := by
    simp only [checkOnStore, hfind, checkLocationReminders, JSValue.truthy]
    simp [triggerLoop, hnear]
  exact (sequential_checks_trigger_once [homeReminder] 7 7 (fun _ => true) (fun _ => true)
    0 5 (.number 1) (.number 2) (.number 1) (.number 2) _ _ rfl rfl).2.1
    _ hmem _ h rfl

/-! ## From the geocoder to the trigger -/

/-- The location of the record when the geocoder finds the parsed place. -/
theorem reminderData_geocoded_location (chronoParse : JSString → List ParsedResult)
    (client : JSString → Option (List GeocodeResult)) (text : JSString)
    (location : Location) (data : LocationData) (userId : Nat) (body : ReminderBody)
    (hloc : (parseReminder chronoParse text).location = some location)
    (hname : location.placeName.isEmpty = false)
    (hgeo : geocodePlace client location.placeName = .ok (some data))
    (hinput : body.originalInput = some text) (htitle : isSet body.title = false) :
    (reminderData chronoParse client userId body).location
      = some { coordinates := some data.coordinates, address := some data.address,
               placeName := some location.placeName,
               placeType := some data.placeType, radius := some 500 } := by
  have hset := isSet_of_location chronoParse text location hloc
  have hrad : location.radius = 500 := by
    apply extractLocationTriggers_radius text
    simpa [parseReminder] using hloc
  have hin : isSet body.originalInput = true := by rw [hinput]; exact hset
  simp only [reminderData, hin, htitle, Bool.not_false, Bool.and_self, if_true, hinput,
    Option.getD_some, hloc, hname, hgeo, hrad]
  norm_num [hset]

/-- C25: when `geocodePlace` resolves the parsed place to a position, of
latitude and longitude both other than 0, the record of `createReminder`
holds the coordinates `[lng, lat]` and the radius 500; for a document with
this location, a location check at that latitude and longitude reads the
coordinates back in the same order, the distance is 0, and the reminder is
triggered and returned. -/
theorem geocoded_reminder_triggers (chronoParse : JSString → List ParsedResult)
    (client : JSString → Option (List GeocodeResult)) (text : JSString)
    (location : Location) (result : GeocodeResult) (others : List GeocodeResult)
    (userId : Nat) (body : ReminderBody) (doc : Reminder) (now : Date)
    (hloc : (parseReminder chronoParse text).location = some location)
    (hname : location.placeName.isEmpty = false)
    (hclient : client location.placeName = some (result :: others))
    (hlat : result.lat ≠ 0) (hlng : result.lng ≠ 0)
    (hinput : body.originalInput = some text) (htitle : isSet body.title = false)
    (hdoc : doc.location = (reminderData chronoParse client userId body).location) :
    (∃ l, (reminderData chronoParse client userId body).location = some l ∧
      l.coordinates = some (result.lng, result.lat) ∧ l.radius = some 500) ∧
    calculateDistance result.lat result.lng result.lat result.lng = 0 ∧
    isNearby (.number result.lat) (.number result.lng) doc = true ∧
    (checkLocationReminders (some [doc]) (fun _ => true) now
        (.number result.lat) (.number result.lng)).response
      = .ok 1 [markTriggered now doc] := by
  have hgeo : geocodePlace client location.placeName
      = .ok (some
        { coordinates := (result.lng, result.lat)
          address := result.formatted_address
          placeName := location.placeName
          placeType :=
            match result.types with
            | t :: _ => if t.isEmpty then utf16 "unknown" else t
            | [] => utf16 "unknown" }) := by
    simp only [geocodePlace, hclient]
  have hrec := reminderData_geocoded_location chronoParse client text location _ userId body
    hloc hname hgeo hinput htitle
  have hnear : isNearby (.number result.lat) (.number result.lng) doc = true := by
    apply isNearby_at_target doc _ result.lng result.lat (hdoc.trans hrec) rfl
    simp [radiusOrDefault]
  refine ⟨⟨_, hrec, rfl, rfl⟩, ?_, hnear, ?_⟩
  · have h1 : (⟨1, 0⟩ : ℂ) = 1 := rfl
    simp only [calculateDistance, sub_self, zero_mul, zero_div, Real.sin_zero, mul_zero,
      add_zero, Real.sqrt_zero, sub_zero, Real.sqrt_one, atan2, h1, Complex.arg_one]
  · simp [checkLocationReminders, JSValue.truthy, hlat, hlng, triggerLoop, hnear]

/-- Witness of C25: "Call John when I reach office", resolved to longitude 2
and latitude 1, is nearby at latitude 1 and longitude 2. -/
theorem geocoded_reminder_triggers_witness :
    isNearby (.number 1) (.number 2)
      { id := 4, user := 7, status := .active, triggerType := .location,
        location := (reminderData noDates officeClient 7 callJohnBody).location,
        isTriggered := false, triggeredAt := none } = true := by
  have hp : (parseReminder noDates callJohnText).location = some ⟨utf16 "office", 500⟩ := by
    decide
  exact (geocoded_reminder_triggers noDates officeClient callJohnText
    ⟨utf16 "office", 500⟩
    { lng := 2, lat := 1, formatted_address := utf16 "1 Main Street",
      types := [utf16 "premise"] } [] 7 callJohnBody _ 0 hp (by decide) rfl
    (by norm_num) (by norm_num) rfl rfl rfl).2.2.1

/-! ## Position zero -/

/-- C27: a request whose latitude is the number 0, and a request whose
longitude is the number 0, gets the response 400; no reminder is read,
triggered or modified. -/
theorem checkLocationReminders_rejects_zero (find : Option (List Reminder))
    (saveOk : Reminder → Bool) (now : Date) (other : JSValue) :
    ((checkLocationReminders find saveOk now (.number 0) other).response = .badRequest ∧
      (checkLocationReminders find saveOk now (.number 0) other).queried = false ∧
      (checkLocationReminders find saveOk now (.number 0) other).saved = []) ∧
    ((checkLocationReminders find saveOk now other (.number 0)).response = .badRequest ∧
      (checkLocationReminders find saveOk now other (.number 0)).queried = false ∧
      (checkLocationReminders find saveOk now other (.number 0)).saved = []) := by
  constructor <;> simp [checkLocationReminders, JSValue.truthy]

/-! ## Place names -/

/-- C28, on the code: in "Meet me at" followed by two blanks the bare pattern
matches, its `\s+` gives one blank back and the group captures it; the place
name is the empty string and the trigger type is `location`. -/
theorem extractLocationTriggers_empty_placeName :
    (barePattern.exec meetText).map Match.capture = some (some [32]) ∧
    extractLocationTriggers meetText = some ⟨[], 500⟩ ∧
    (parseReminder noDates meetText).location = some ⟨[], 500⟩ ∧
    (parseReminder noDates meetText).triggerType = .location := by
  decide

/-- C29: "Eat lunch" consists of the words "Eat" and "lunch", none of which
is "at", "near", "in" or "by"; the bare pattern matches inside "Eat", so a
location with place name "lunch" is returned and, with no date found, the
trigger type is `location` and the task is "E". -/
theorem eat_lunch_location :
    words eatLunchText = [utf16 "Eat", utf16 "lunch"] ∧
    (∀ w ∈ words (toLowerCase eatLunchText),
      w ∉ [utf16 "at", utf16 "near", utf16 "in", utf16 "by"]) ∧
    extractLocationTriggers eatLunchText = some ⟨utf16 "lunch", 500⟩ ∧
    (parseReminder noDates eatLunchText).triggerType = .location ∧
    (parseReminder noDates eatLunchText).task = utf16 "E" := by
  decide

/-! ## The owner of a created reminder -/

/-- C30, on the code: for the authenticated user 7 and a body that holds
`user: 9`, the record passed to persistence has user 9; the `user` of the
record is the `user` of the body whenever the body holds one. -/
theorem reminderData_user_from_body :
    (reminderData noDates failingClient 7 foreignBody).user = 9 ∧
    (∀ (chronoParse : JSString → List ParsedResult)
        (client : JSString → Option (List GeocodeResult)) (userId : Nat)
        (body : ReminderBody) (other : Nat),
      body.user = some other →
      (reminderData chronoParse client userId body).user = other) := by
  have key : ∀ (chronoParse : JSString → List ParsedResult)
      (client : JSString → Option (List GeocodeResult)) (userId : Nat)
      (body : ReminderBody) (other : Nat),
      body.user = some other →
      (reminderData chronoParse client userId body).user = other := by
    intro chronoParse client userId body other h
    unfold reminderData
    simp only [h, Option.getD_some]
    split
    · split
      · split
        · split <;> rfl
        · rfl
      · rfl
    · rfl
  exact ⟨key noDates failingClient 7 foreignBody 9 rfl, key⟩

end SmartCue
